import Mathlib

/-!
Verification of the tic-tac-toe core (game.c, ai.c) against its specification.

The 3x3 board `char board[3][3]` is embedded as a natural number holding nine
base-3 digits in row-major order: digit `3*i+j` is cell `(i,j)`, with digit
value `0` for `' '` (Empty), `1` for `'X'`, `2` for `'O'`.  A board is
well-formed when it is below `3^9 = 19683`.  The representation-level
accessors `getCell`/`setCell` are written with raw `Nat` primitives so that
concrete runs reduce fast in the kernel; every game-level function mirrors
the C source line by line on top of them.

The AI's global instrumentation counters (`g_nodesSearched`,
`g_maxDepthReached` in ai.c) together with the mutated board form the state
record `SState`, threaded explicitly through the search exactly where the C
code mutates: `Game_makeMove` before each recursive call, `Game_makeMove`
with `' '` after it (the apply/undo pair), and the counter updates at every
`AI_minimax` entry.  The C recursion terminates because every recursive call
is on a board with one more mark; the embedding makes this explicit with a
fuel parameter, and `AI_minimax` instantiates the fuel with 10, an upper
bound on the number of empty cells plus one, so the fuel-exhausted branch is
never reached on any board.
-/

/-- Cell `(i,j)` of board `b`: base-3 digit `3*i+j`. `0` = Empty, `1` = X, `2` = O. -/
def getCell (b i j : Nat) : Nat := Nat.mod (Nat.div b (Nat.pow 3 (Nat.add (Nat.mul 3 i) j))) 3

/-- Overwrite digit `3*i+j` of `b` with `v`: keep the digits below, put `v`,
keep the digits above.  This is the board write `board[i][j] = v`. -/
def setCell (b i j v : Nat) : Nat :=
  Nat.add (Nat.add (Nat.mod b (Nat.pow 3 (Nat.add (Nat.mul 3 i) j)))
      (Nat.mul v (Nat.pow 3 (Nat.add (Nat.mul 3 i) j))))
    (Nat.mul (Nat.div b (Nat.pow 3 (Nat.add (Nat.add (Nat.mul 3 i) j) 1)))
      (Nat.pow 3 (Nat.add (Nat.add (Nat.mul 3 i) j) 1)))

/-- The nine cells in row-major order: the iteration order of every
`for (i) for (j)` loop in game.c and ai.c. -/
def cellsRM : List (Nat × Nat) :=
  [(0,0),(0,1),(0,2),(1,0),(1,1),(1,2),(2,0),(2,1),(2,2)]

/-- Game_isMovesLeft (game.c): scans the board for a `' '` cell. -/
def Game_isMovesLeft (b : Nat) : Bool := cellsRM.any (fun p => getCell b p.1 p.2 == 0)

/-- Row `i` holds three identical non-empty marks (game.c line 65). -/
def rowWin (b i : Nat) : Bool :=
  getCell b i 0 != 0 && getCell b i 0 == getCell b i 1 && getCell b i 1 == getCell b i 2

/-- Column `j` holds three identical non-empty marks (game.c line 73). -/
def colWin (b j : Nat) : Bool :=
  getCell b 0 j != 0 && getCell b 0 j == getCell b 1 j && getCell b 1 j == getCell b 2 j

/-- Main diagonal holds three identical non-empty marks (game.c line 80). -/
def diagWin (b : Nat) : Bool :=
  getCell b 0 0 != 0 && getCell b 0 0 == getCell b 1 1 && getCell b 1 1 == getCell b 2 2

/-- Anti-diagonal holds three identical non-empty marks (game.c line 85). -/
def antiDiagWin (b : Nat) : Bool :=
  getCell b 0 2 != 0 && getCell b 0 2 == getCell b 1 1 && getCell b 1 1 == getCell b 2 0

/-- `(cell == 'X') ? 1 : -1`, the winner code returned by Game_checkWin. -/
def lineVal (c : Nat) : Int := if c = 1 then 1 else -1

/-- Game_checkWin (game.c): rows first, then columns, then the two diagonals,
first match wins; `1` = X wins, `-1` = O wins, `0` = draw (full board, no
winner), `2` = ongoing. -/
def Game_checkWin (b : Nat) : Int :=
  if rowWin b 0 then lineVal (getCell b 0 0)
  else if rowWin b 1 then lineVal (getCell b 1 0)
  else if rowWin b 2 then lineVal (getCell b 2 0)
  else if colWin b 0 then lineVal (getCell b 0 0)
  else if colWin b 1 then lineVal (getCell b 0 1)
  else if colWin b 2 then lineVal (getCell b 0 2)
  else if diagWin b then lineVal (getCell b 0 0)
  else if antiDiagWin b then lineVal (getCell b 0 2)
  else if Game_isMovesLeft b then 2 else 0

/-- Game_makeMove (game.c line 104): `self->board[row][col] = symbol;` — an
unconditional overwrite, no bounds check and no emptiness check, specialized
to the in-range indices every caller in game.c/ai.c supplies.
`Game_makeMove_c` below gives the semantics for arbitrary `int` indices. -/
def Game_makeMove (b : Nat) (row col : Nat) (symbol : Nat) : Nat := setCell b row col symbol

/-- Outcome of the raw C board write for arbitrary `int` indices: either a
defined write, or an out-of-bounds array access.  The C function has a `void`
return type and no error channel of any kind. -/
inductive MoveOutcome where
  | ok (board : Nat) : MoveOutcome
  | undefinedBehavior : MoveOutcome
deriving DecidableEq, Repr

/-- Game_makeMove on arbitrary `int` coordinates.  The body of the C function
is the single unconditional statement `self->board[row][col] = symbol;`; the
range split below is the semantics of the C array subscript (out-of-range
subscripts are undefined behavior), not a test present in the code.  In
particular the function has no error result: there is nothing it can fail
with. -/
def Game_makeMove_c (b : Nat) (row col : Int) (symbol : Nat) : MoveOutcome :=
  if 0 ≤ row ∧ row < 3 ∧ 0 ≤ col ∧ col < 3 then
    MoveOutcome.ok (Game_makeMove b row.toNat col.toNat symbol)
  else MoveOutcome.undefinedBehavior

/-- Result type of the spec's board `apply` operation. -/
inductive ApplyResult where
  | applied (board : Nat) : ApplyResult
  | outOfRange : ApplyResult
deriving DecidableEq, Repr

/-- Modelled from the spec (section 4.1), for comparison with the code:
`apply(row, col, mark)`: fails with `OutOfRange` if row/col ∉ [0,2];
overwrites the cell unconditionally. -/
def apply_spec (b : Nat) (row col : Int) (mark : Nat) : ApplyResult :=
  if 0 ≤ row ∧ row < 3 ∧ 0 ≤ col ∧ col < 3 then
    ApplyResult.applied (setCell b row.toNat col.toNat mark)
  else ApplyResult.outOfRange

/-- The Move struct of game.h: two `int` coordinates.  AI_findBestMove_impl
initializes it to the sentinel `{-1, -1}`. -/
structure Move where
  row : Int
  col : Int
deriving DecidableEq, Repr

/-- The internal Candidate struct of ai.c: a move with its minimax score. -/
structure Candidate where
  r : Nat
  c : Nat
  score : Int
deriving DecidableEq, Repr

/-- The AICandidate struct of ai.h, filled by AI_explain. -/
structure AICandidate where
  row : Nat
  col : Nat
  score : Int
deriving DecidableEq, Repr

/-- The AI struct of ai.h without its Game pointer and function pointer: the
board it points to travels inside `SState` instead. -/
structure AI where
  difficulty : Int
  verbose : Int
deriving DecidableEq, Repr

/-- The mutable state a search call touches: the shared board (through the
Game pointer) and the two global instrumentation counters of ai.c. -/
structure SState where
  board : Nat
  nodesSearched : Nat
  maxDepthReached : Nat
deriving DecidableEq, Repr

/-- AI_evaluate (ai.c): `+10` when O has a line (checkWin `-1`), `-10` when X
has a line (checkWin `1`), `0` otherwise. -/
def AI_evaluate (b : Nat) : Int :=
  let s := Game_checkWin b
  if s = -1 then 10 else if s = 1 then -10 else 0

/-- One `for (i) for (j)` search loop body of ai.c, shared by AI_minimax's two
branches and AI_getPrediction: for each empty cell, apply `mark`, run the
recursion `rec`, undo the move, and combine the returned value into the
running extremum with `cmb` (strict `>` update for the maximizer, strict `<`
for the minimizer). -/
def legalFold (rec : SState → Int × SState) (mark : Nat) (cmb : Int → Int → Int)
    (cs : List (Nat × Nat)) (acc : Int × SState) : Int × SState :=
  cs.foldl (fun acc p =>
    if getCell acc.2.board p.1 p.2 = 0 then
      let s1 : SState := ⟨Game_makeMove acc.2.board p.1 p.2 mark, acc.2.nodesSearched, acc.2.maxDepthReached⟩
      let vs := rec s1
      let s3 : SState := ⟨Game_makeMove vs.2.board p.1 p.2 0, vs.2.nodesSearched, vs.2.maxDepthReached⟩
      (cmb vs.1 acc.1, s3)
    else acc) acc

/-- AI_minimax (ai.c) with an explicit fuel bound on the recursion depth.
Each entry updates the instrumentation counters, returns the depth-biased
score at terminal positions (`score - depth` for an O win, `score + depth`
for an X win, `0` for a full board), and otherwise folds the apply/recurse/
undo loop over the nine cells, maximizing for O (`isMax`) or minimizing for
X, starting from `-INT_MAX` resp. `INT_MAX`. -/
def minimaxF : Nat → SState → Nat → Bool → Int × SState
  | 0, st, _, _ => (0, st)
  | fuel+1, st, depth, isMax =>
    let st1 : SState :=
      ⟨st.board, st.nodesSearched + 1,
        if depth > st.maxDepthReached then depth else st.maxDepthReached⟩
    let score := AI_evaluate st1.board
    if score = 10 then (score - (depth : Int), st1)
    else if score = -10 then (score + (depth : Int), st1)
    else if !Game_isMovesLeft st1.board then (0, st1)
    else if isMax then
      legalFold (fun s => minimaxF fuel s (depth + 1) false) 2
        (fun v a => if v > a then v else a) cellsRM (-2147483647, st1)
    else
      legalFold (fun s => minimaxF fuel s (depth + 1) true) 1
        (fun v a => if v < a then v else a) cellsRM (2147483647, st1)

/-- AI_minimax as called by the rest of ai.c: fuel 10 covers the deepest
possible recursion (at most 9 empty cells, one consumed per level). -/
def AI_minimax (st : SState) (depth : Nat) (isMax : Bool) : Int × SState :=
  minimaxF 10 st depth isMax

/-- The candidate-collecting loop of AI_findBestMove_impl: like `legalFold`
but also records every `(i, j, score)` candidate in order and tracks the best
value and best move, updated only on strict `>`. -/
def bestScan (rec : SState → Int × SState) (cs : List (Nat × Nat))
    (acc : Int × Move × List Candidate × SState) : Int × Move × List Candidate × SState :=
  cs.foldl (fun acc p =>
    if getCell acc.2.2.2.board p.1 p.2 = 0 then
      let s1 : SState := ⟨Game_makeMove acc.2.2.2.board p.1 p.2 2, acc.2.2.2.nodesSearched, acc.2.2.2.maxDepthReached⟩
      let vs := rec s1
      let s3 : SState := ⟨Game_makeMove vs.2.board p.1 p.2 0, vs.2.nodesSearched, vs.2.maxDepthReached⟩
      if vs.1 > acc.1 then
        (vs.1, ⟨(p.1 : Int), (p.2 : Int)⟩, acc.2.2.1 ++ [⟨p.1, p.2, vs.1⟩], s3)
      else (acc.1, acc.2.1, acc.2.2.1 ++ [⟨p.1, p.2, vs.1⟩], s3)
    else acc) acc

/-- AI_findBestMove_impl (ai.c).  Resets the instrumentation counters, scores
every legal move (applying `'O'`, minimax at depth 0 from the minimizer's
view, undo), then selects by difficulty: 2 = the tracked best move; 1 = a
uniformly random pool member with score within 2 of the best (threshold
clamped at -10), the `rand()` draw modelled by the `randVal` argument;
otherwise (0) a uniformly random legal move. -/
def AI_findBestMove_impl (ai : AI) (st : SState) (randVal : Nat) : Move × SState :=
  let st0 : SState := ⟨st.board, 0, 0⟩
  let scan := bestScan (fun s => AI_minimax s 0 false) cellsRM
    (-2147483647, ⟨-1, -1⟩, [], st0)
  let bestVal := scan.1
  let bestMove := scan.2.1
  let cand := scan.2.2.1
  let sOut := scan.2.2.2
  let n := cand.length
  if n = 0 then (bestMove, sOut)
  else if ai.difficulty = 2 then (bestMove, sOut)
  else if ai.difficulty = 1 then
    let threshold := if bestVal - 2 < -10 then (-10 : Int) else bestVal - 2
    let pool := (List.range n).filter (fun k => threshold ≤ (cand.getD k ⟨0, 0, 0⟩).score)
    if 0 < pool.length then
      let pick := pool.getD (randVal % pool.length) 0
      (⟨((cand.getD pick ⟨0, 0, 0⟩).r : Int), ((cand.getD pick ⟨0, 0, 0⟩).c : Int)⟩, sOut)
    else (bestMove, sOut)
  else
    let pick := (List.range n).getD (randVal % n) 0
    (⟨((cand.getD pick ⟨0, 0, 0⟩).r : Int), ((cand.getD pick ⟨0, 0, 0⟩).c : Int)⟩, sOut)

/-- AI_getPrediction (ai.c): the same full-enumeration maximizing pass as the
best-move scan — but with no counter reset — followed by the sign
classification: `-1` AI (O) will win, `1` the player will win, `0` draw. -/
def AI_getPrediction (ai : AI) (st : SState) : Int × SState :=
  let r := legalFold (fun s => AI_minimax s 0 false) 2
    (fun v a => if v > a then v else a) cellsRM (-2147483647, st)
  (if r.1 > 0 then -1 else if r.1 < 0 then 1 else 0, r.2)

/-- The enumeration loop of AI_explain: scores every legal move and appends
it to the output list while fewer than `maxOut` entries have been stored; the
returned count keeps growing regardless. -/
def explainScan (rec : SState → Int × SState) (maxOut : Int) (cs : List (Nat × Nat))
    (acc : Nat × List AICandidate × SState) : Nat × List AICandidate × SState :=
  cs.foldl (fun acc p =>
    if getCell acc.2.2.board p.1 p.2 = 0 then
      let s1 : SState := ⟨Game_makeMove acc.2.2.board p.1 p.2 2, acc.2.2.nodesSearched, acc.2.2.maxDepthReached⟩
      let vs := rec s1
      let s3 : SState := ⟨Game_makeMove vs.2.board p.1 p.2 0, vs.2.nodesSearched, vs.2.maxDepthReached⟩
      (acc.1 + 1, if (acc.1 : Int) < maxOut then acc.2.1 ++ [⟨p.1, p.2, vs.1⟩] else acc.2.1, s3)
    else acc) acc

/-- AI_explain (ai.c): resets the counters, then enumerates all legal moves
with their scores, capped at `maxOut` stored entries. -/
def AI_explain (ai : AI) (st : SState) (maxOut : Int) : Nat × List AICandidate × SState :=
  explainScan (fun s => AI_minimax s 0 false) maxOut cellsRM (0, [], ⟨st.board, 0, 0⟩)

/-- AI_setVerbose (ai.c): clamp into [0,2] by two successive tests. -/
def AI_setVerbose (ai : AI) (v : Int) : AI :=
  let v1 := if v < 0 then 0 else v
  let v2 := if v1 > 2 then 2 else v1
  ⟨ai.difficulty, v2⟩

/-- AI_setDifficulty (ai.c): clamp into [0,2] by two successive tests. -/
def AI_setDifficulty (ai : AI) (level : Int) : AI :=
  let l1 := if level < 0 then 0 else level
  let l2 := if l1 > 2 then 2 else l1
  ⟨l2, ai.verbose⟩

/-- AI_init's defaults (ai.c): difficulty hard (2), verbosity silent (0). -/
def AI_init : AI := ⟨2, 0⟩

/-- The AI-vs-AI game loop of main.c (runAIvsAI): starting from `turn = 0`
(X), stop as soon as Game_checkWin leaves `2` (ongoing); otherwise ask
AI_findBestMove for a move — the selector always scores for O — place the
current side's own mark on it, and flip the turn.  Both engines run at
difficulty 2 (Optimal), which reads no randomness, so `randVal` 0 is passed.
Fuel 10 covers the at most 9 moves of a game. -/
def AIvsAI_playout : Nat → Nat → SState → SState
  | 0, _, st => st
  | fuel+1, turn, st =>
    if Game_checkWin st.board = 2 then
      let r := AI_findBestMove_impl AI_init st 0
      let mark := if turn = 0 then 1 else 2
      AIvsAI_playout fuel (1 - turn)
        ⟨Game_makeMove r.2.board r.1.row.toNat r.1.col.toNat mark, r.2.nodesSearched, r.2.maxDepthReached⟩
    else st

/-- The empty board Game_init produces (all cells `' '`). -/
def initialBoard : Nat := 0

/-- A board is well-formed when all nine digits are below 3. -/
def wfBoard (b : Nat) : Prop := b < 19683

/-- The legal moves — the empty cells — in row-major order. -/
def legalMovesRM (b : Nat) : List (Nat × Nat) := cellsRM.filter (fun p => getCell b p.1 p.2 == 0)

/-- Number of empty cells. -/
def emptyCountN (b : Nat) : Nat := (legalMovesRM b).length

/-- The top-level score AI_findBestMove_impl, AI_getPrediction and AI_explain
all give to the legal move `p`: apply `'O'` and run AI_minimax at depth 0 for
the minimizer, on fresh counters. -/
def AI_moveScore (b : Nat) (p : Nat × Nat) : Int :=
  (AI_minimax ⟨Game_makeMove b p.1 p.2 2, 0, 0⟩ 0 false).1

/-- All candidates of a board, in scan order. -/
def candidatesOf (b : Nat) : List Candidate :=
  (legalMovesRM b).map (fun p => ⟨p.1, p.2, AI_moveScore b p⟩)

/-- The best (maximal) top-level score over all legal moves, accumulated from
`-INT_MAX` exactly as the scan loop does. -/
def bestScoreOf (b : Nat) : Int :=
  ((legalMovesRM b).map (AI_moveScore b)).foldl (fun a v => if v > a then v else a) (-2147483647)

/-- Count of cells of board `b` holding mark `v`. -/
def markCount (b v : Nat) : Nat := (cellsRM.filter (fun p => getCell b p.1 p.2 == v)).length

/-- The side `isMax` can be to move on board `b` in the games the search
engine actually explores: the mover's mark count trails the other's by 0
or 1.  Every top-level search applies `'O'` first, so its recursion only
meets boards satisfying this; the game-value table is only checked (and
only correct) on them. -/
def countsOK (b : Nat) (isMax : Bool) : Bool :=
  if isMax then markCount b 1 == markCount b 2 || markCount b 1 == markCount b 2 + 1
  else markCount b 2 == markCount b 1 || markCount b 2 == markCount b 1 + 1

/-- Forcing combinator: the kernel evaluates `x` to a literal once and
substitutes the literal, instead of re-evaluating `x` at every use site.
Semantically the identity (`withNat_eq`). -/
def withNat (x : Nat) (f : Nat → Bool) : Bool :=
  match x with
  | 0 => f 0
  | n+1 => f (n+1)

/-- The game-value table: for every board `b < 19683`, bits `10*b ..< 10*b+5`
hold the depth-0 minimizing-side minimax value of `b` offset by 10 into
`[0,20]`, and bits `10*b+5 ..< 10*b+10` the maximizing-side value.  Nothing
about this literal is trusted: `fpCheck` below states, board by board, that
it satisfies the defining recursion of AI_minimax, and the `fpAll` theorem
verifies that by kernel computation. -/
def tblGiant : Nat := 34971546925940301586988195248990612940160414516075791144245723266829418250316005319394676265967335987904113940810682678422216669857734743768067536348057451401775535106311599249622038391352325347477701113365198536892693123922887881356584664182638705458804353863250019756330135049233885919691561580279147523759050332792025059655386460009968281090305030140217710944769906557915451523589877091698379194712724158772146323307518357826901857683054366431877063349220445660496352409789989832185348344899621626722384709357246502155313454581060394851009696343130946163015178061964426842537861065447314219256917497382727884988081262683973879145892191284982231723006268143266735547671992477529135620383231034265739320174282775280749238493633883800547707856840088580326778352738917211979028129031781732633323254615921944187325931174889177440470811375145189383259032073331183604443136940811034611729256233702451824550414477667392072854923403999454206188284406274111751756686381697756180103424167107016667445161462522420724439435564152158047065226598370482946605816927728663002570027842360568055968090355385325949267009444368695693622404013650123912819392743258987297908175638903025118184488914037564131020950593311672417531246358620003925837645866942117691505448961314772243877037616645558799849877344252794929467796162932280939911743321977357961945979953988207809484728688783558837822993318516292416130799566018681344559125519622646069279389882783500867896772903571167684551587687455501137048970538465465859194444903318402270220382230690366592559690942749550379458735696941028911250782871203728968448570851465331972868218526273500004069726958340363858398336732191225517228727777372407059583173290485754862670753294493164938364305453395473362321807805388196759717002709889141110756554815288745155159128652267502532372850162538636394087121463565885499507805513879728406564119003349910449810474997722413566965072685675256511953364615117962743917116212730077280905364852636020934864892075704247476791912066010691403550742736928296057722453046615404591988177745467200617683628838734968993235554993770002691773075487740674607176197041793770212557118030012512491190849187252207598377624589772300981559604253236724055180329858909567317522358984002598148252681494066161345293984676649365266184346649980137218223703321803874520212491954300734077510026173971982653491663786347505050453547382525058454687800354091373116900669344833340997337183541232600701746189486393914922493117565715322929840152460039269475584312474663520549006942852848334248200354671784920058066419042432876042415662548320633092153976331500931616364224759215862964151358667492595622135413079447177745367428240164014997029637594832824746840165780701774570754195577325568290239185298304637685572665359940379512980029468694334243567319990512962501297522113270524692567407117322490663215821609689656337362519957635355552895816195229478955734124024718988356647899298206303013149710718025476498256724337958180379072987529753850599490108512813498400153778729792223732903939389554848675007187320410626103218290039833775213234936924682583116540665571467208804464620140717248254475125485718345522568935896684324080831144692162457816427752743833060559935014389632139359116917973390675764939328783397482368567471774027319344640286967948447991895815194517313045236064846585411813408145099525340140238002123621673761130893668293828265324085024880588168656900009323093178274622769481351847624372362480755031762071595743617494272244334753527625780102204627063427281587207874436985865167138571058008761186636645541105539987534005036906587393042189168448178684609886086516210063261123789321902108156013655550631916318833365976978731722714329508907236844357006368653988860526841324610131666680038402466908975850004678658124488102322082633644206083240212004093712463113242820364336257877757749589851838034353532951199885812541116132026328858115804519202531921001200235445956440542777562521801517920420030937065514461028482902380224601485982322037170803412540697993005794280393519612667140184701225321149773712560935689412737930321584313714319749342209930633878738919761934891202463978243491835615222708295935320066840949259987908761099536534964692728513292674245243512901287517111370871074123002544360318687072987847295916465616144478418010481350212670999332738469012226141469456824546491643151543789358503617262338021313231774284031952238963196455659447158371482022723962958615175955521110255717210281430663594015816315949197046609967758013195485660658699718190382004169967743422501770946803635012606543681213816976420356419021859854211669667454497988675799267983543435552832386064580317700892773780251681820327370655005596420205139134537099778697343289279936920161314159811356885165742921699231035841533345927967135530905098905563398897494653991810440223058001478887879800928130079819080499036329336324111561388580710582267044645971777814073078880725711813256692181655559511721110115306573979565523060626714776510432146377706503540859168778594405030900536817882102665202047453924803684846040160630229295660283988973915665532265633563727390932795046857802561256958372028172477120141680209159192109325154169920903124203802982464012865994627643326866170664766396125743508484526466335011430784695348714659114729561021031443313440538579692280686649471640104294274179672894399485548638215375639465154052517142386795827634860642745009405900437127209409154211927667155841667721535799735648819160477741797622065098472247562985209522924113239473085101874715372896247319120463189068025779092473276659031546369419220441576044711557861334342565269855366300782850869224378822062512590918536059770651903549900343084198754031640962550825312207572053514128727052301896077783506595825077254028737197043600735933468519047285811800629935454211371048093486848039774318017262278835530063377302141273469643023165968171151722623572661097043018929974954699210641461764110177074101852870032199485002142308343765753696013177403881781570464730205469194978396205113957992038067544438987550323174449820694018245806713498172958024115256477935398574050992197330892367149350931291239315628378461658051107101297282370553824066862399633666426382594776944758538832704067948458518542371571867929387944876005667570316274878309270168884697664711771010383568993082963605134802222588888187538893154305878509128051975945664295843812304166293694917967549495928614150657793067919906961472009291702265746345758359949810195478159880889969015614044729165487001479524140430322939626172409923681253061299253656875640289535057328937533612491032808886215875978470348596991842294135445077275269394193359065623797378621870982933857463192155261545225101795222001904325145227029338092231066067018542202596588739326445737331698193413070400051915127559067438470713231934564399931524289271040628502560559978799569769641359435846784603142509553881906611741491392595717483347962738636546704894828487567509096410928783420034877596518101982686533864017133295192691155400261313007101454171143233539267036718623550387683996957312118990066781447688012657189731374796654474846342417758122868128039798448079467607824076826222281882460559099717780896075163916525802182578043558191808763957549778844505938294735097852568361497509983825294552578223074846706478294216372325569287570412238023738233520731679266123976391879272695550031993872835386124936552050744788620801334306719828519661377275791561617532815257559442968414708611428360561274334833541624501719983528171914859602320146030014261090447309128001559715598939430049378858459394851275151273610486261354059122838642313401716298906431609019656036032996712663386459275204869737470692559458492269662523233680015544281137616714116388613950553126066016239588039374664460666885298195648344671817202134853157499794344589496663112805791191036971028313704967214725390532502694462719552438859744165323821265631934953360280430443295940591877600428005969984920097496897852193891450590802922549319120729077471969511893112221560860116053743201315068097777006160578157026386735863669688455520253667863027453403455074509353573116006799109045534334162361649726077081011417396393501899638932195593535246662763027953112486442651350924982073263831708376380535625007720852933351157941531033939520803413067528745197791513122583399278723007344906512718733873974226314486255775798949469823060017703746192409383452701662278172071558282387485018630683325277595999101612369383137085883720515429583825324856035294032778921412429624852663873933669537602179386501815778766911894039460067124540961829495440029898105782065513707848321517135036098299784346471814836655911935956652543155095220444536838093960497204651547500656502501207544275511197489657747165920480628449169752728062197105835792124554960825259748282252822055170230584001735060316106366728419865123594693435004202180454026528654430438764550456531277223993804186324740729582597324625004554860919985070006771557347172463368892325309820442188756598217474047466108153266142652361747523927437280613538150622595721428332781156335194468220515165853171381199318667032226531485030122998299868554581668592825421442424186297473577278064909943768605658524847065079015167012091576091812649211262484603071064918276930615155784696064233529205212786807269727059379312257588388281740646842452933100663296018852034902536861674614528396521902707272451293845272553792781973659202643821117509843787584367490782909060471419742536726174205727999035120239470986632915972169923827917557916702819822977546054660860676522703768117076224441988585107712075113703161919142087151084898792519235203661073001077095212809319104382619132560742348040286303849477721933670687725498601481749726038514789001419078457764745552145219883544268941990112429759324534955398034725576328330090623957701680230874323041512869753862339136400409008912439018321594551690995051007477855562975532039382948885365392772046989279643149986652551772671663055355301345786413981408931719713737404130617916965791156968969438040107229295918192114593082434913450052271137951789745642433314604038768302386503886469344819701607069721335272850655481084101347255763904200023907718477777239497248053595732038965362239768164650714931525554112208753701967839759881872644006099247802949616054333359295302062549457899550146320746548867260002044224738290772799430463581134973878551568404125717931656400262111448243629875525596416338255129467215121931653665080782174833677146803068611988086606615094337860590873653936689528977846552152024933003169538253155788808486215631700041872948762763239884167177758020756017925487052567171807189716654206084822784572709203182126597643067299483914370950451103890339974571734594407367108722831113030834666645491033460915226058259412809218180143344112937303142628184276843821162937957959757105160458124022097274690048277236532135820600393413884310903994515449985008606714215777691058432791749715345818730354029022362452510377361399948549235555229070319537996837423169611941363373105441579543723992794270605151505261878859000577613461354160263472626405087476273519950318318751489278763999056063762801505232219441085248750519246587388649288741774536778028924408569318497429909206126579827797227784951902126112245021856383170502231564590556744817431692568545736926257539355343542893174276441450763982864583212209934269494876720339998936053932170454888447269608322922421003367862329088870148491201667630463169938082376113156155169525419507361533560368891367434242917011797308505077685415988194660349165068025626508631739734808242806448290767937339758775509769737476355084026331480883254519155512031655997822399974706266759384511864306884247948964369621693788145178320489722659772239514552359591410919011636676236884101008617279474222738784090492927186123855349729180572084464834367262887532513690753983915784938494239136916414763441335535496111128026340549975603120883618809868694309053368891836329126464643374567918774189592231993794252101394651782150431386920590575020051086968736199469882273230538784485683790415950187583202830764291540562114167529654224547479696899285821433670667622619023690882549749085454464709692646168194025845095188156789906887656408850141617893770576856496846808508775689082367333926653790987386885522461908059026608629136668283727029986769939404796329212687473957106142463541350091857951415773894556570627542287718600713148804578869362779851214478773824602928194515073481628889936934768486799423588851647679279820318431213789043866344791439587896258353835989065769314187310001987853931915491452684117406048935045245350785480342040878777957174052245273642507775650753575066736378053600138146130033776935219676836196673902335552668592473058424544433576959270211915867536438115318878417462752540214500167301208232914242717977184583040377419831993759700388903889533749188861472541991074750045264390933733987136297332118446334978753756398591606781968232048461989753978365148896714209891409386227767766784599712132453997463989149356920405202240645574932929225172855278231177725417936578642847146571352249522444959997261495344412586451806103658197079272318898922089039012428262123546483398951206878144127767304476939330200950983487226874654008153678780585370232772346616682270317237534238627304594218761608650985882283441655465768535057780988214829161972792928033600453839980443676447218525230556349617545280396776501677904090069450274439146193505261664244935671510534487071083655802576582751049124186790379073064272764751293808166413273992992929039884080094544766014747997964507388055007254150874899994748835373213146429090566615145597691618526758007578267686261882695135293414564956914069902821110648723997789259992336058979838959378880977268447917719885452140578627490261668711147086165284213798084362689480751119135695949707045998959972616573891952237651783748547088599512513620413214706486027690829547200425542838596414395345586793413591230735363421848042560993349933472043854851577216860661334215644847154268768113337721949900977542909498002935508261194561123655155037064941161114586131127938601796976752916745070415365345639555187893140776930926252310517513952146877668399239470532602156692061554759393381104382662682037436858715347143800947729217204319381360308240351160904320740522652988156027631542906053659295031251896015174430473224301379949931898889344711278171890175550416994883878865401328373174760818677751874635337989081279214826499211002689790266571613239662296105307955355676538210079044928857083790055250351372038896207707242927964694669722657558846445547985308425950030631967558019345590721759006513163782237975939670346234082765111765965801882126763683686264339615972993936873823839047648341986390490503510614232548821285267791936473793229382740878704458828472617887707772322290170887936450974549695220251945952303967109509920127736533693074437956978789260491608874510578840206184085708616401571006871716573706891419144142735409367260547665355072247200061715179932442603890437414120753340084091767797349405995450911183184304945568745049480173016707008718031742984177394795585671938262812190137316900637328288384773648268131008068767561961346607838305267643305109800540963721991783662514821788794096596734433545579833352447593015038482890722762560429471611177045944532297159134079943427755746175772795837178539879159038688341313878011213150021835899310500434039218938416761190591515223663177640430722211045688969209867392524396143804001235832524543573826110017234152848770079485913664533280121094890350399544532763727648670996864525303517790472092101464042515750061311152728700949678110624841797963956952895352365927437251926107805094605628299152454376544841061917087623136755390693788255023132345559017279834592235225779913413555218471330655650077075321465797810143138129121108494459232224177586938726409919744576587893364974452355011272924906671170972372298001959365257850627760842950495043312447378581520757934697751400719407926525558060700671832784734173533215837947445944188993108689115288363315694929055865188106604468711943062552399892401952426366550485187708800314494323345993583966195201736363854392089905579548523120214425359226427083744644292010390007184903915508681136287654262927284857506841484179109393929718045244794476389895636856265028127397519788806430836523388605076606347852033475345740428757168991615948512654253505105931252440448949075609762497894736812460081309703791678298883773886559478225466334291077965591431234621663196658562386190444389472658681184587288150637414860823941583125481576707425233859608907971395854219583240439511666914876650652296138679327682865380019901806721748699341177484518419161394048916295178491399230002504510786064963595944612964728781914779326042107776435249855169441465329783514711953659168027287190396430640771414225823314872300653409493802136366585163833996021066101132044357781150141685367757540112318644597930578721958083550971666745257968938068569522570201766698646161055390955826423209147927724526079953704948310103340884241246934232023954030183618814598404276478054938550160180617719695686040507553864831595878508580181770057492301415321760511388311422363789185564076915494998338709636615023235948838728561562299590077812972249303673205283955042113620419683893057550894798517150100958009331222928024583821178175127695185441219510869353171546295744305761010438269242717890857649415947033645046527955397890267686472367842911152833395089045968595097283834611065393555842034916293740693315776598585471532772260209054989695188012928104204869945338437510075828115257685274865568166647209410462582577615841608237107851755258418029288392851625195001630366658057396751000589733417442782030193384277384275556062365196410188408726182720830968021072670988909778244146037037058344265215516451943363193664072260654467309443878824758823407263328339468067783805198916099357585996803207068040533573946247774035050904022082641541742928280600403787317808454020819900097460456360865328384695964366932294045197079028909490362605259024257004166764223181258870907161816030686042766738615778221482891771481687999944477258423155822568424780849703291476132101322914601754405005236029884481004711012057555936228281882593391204920556384290386253677811064836708239709021593539862710051620941729631406629195513376921025895792344031938113371965794313810288145835012593274265802693916983686066742758359078830771314128319400097595754693555871413963095362685741082270772200716202077476181167939987453420200260950981359459523337025193762649181047556613624329762978581735429795917239512054257397454950037016745921979504668178712675729165432086756260505769035437368653788453797227924741991624945042746958380799136091433845322007034176685342371445566868600369694005639340405207381971193099370385134584836052211521350626696121250797646441919453356945186002272380022347780753734564593721463222000878226039510122334940016552381272044351397459608156078613071775026092437830234296328718223322736173461256556450290380272909000616925634308707778904621072136532505445169027781216827156191943368568891859064940305020685059545810307122633227003029502194160777840657733332020424030091432076732020257648651857116142749591278249625981038351420142814769974734034711541479614142980709647717936278750132559273164289706594218600671382584963776706715809125343503563043570565770510017043480380703681135101268921144789957755500978280159100845928594439574127786046552739576474609534565194940663614020190726944036154545118283184796830592184842315136537073127856213104831622355852202140850300874101561566162723511556981520969763105495029177612755028961522439597668320901185225434269928975362361081503461753169248703519475710723826856922194281832467807753781060315088378206736055030301124424832001562301678704199218166686214318716331259227759051755265083198188000883127480990355319870762127346758868314592140429490378688228981315174601112371376648787988515807406870927685503791173999571511498488905397573969829701688440323264971535752159576688899346339434485703445773795767213776868660245962668995360841789718829047850877643527972249340928054387051746548841335972589210656379304793750796133410182943646874690294471259043954281501218457201707809105230102517243519464227862308220754966840477090747265322398068546235889553535042724268600241832229038633673862398462632564246342110845944303550214278501553930971785221774779034226446474097903854393857236811694293413678887448892562020836010265811798206603278768859567094715837452290109408841882692232828135310550744924955087945664117908860027331956571312559740910652891552881416437204240940214465007951944642387508031388912381231638756336240930921963209135073748699574488332347484331253236528591031458526347366243183115840904292582781365728694022792703702620338022671507718758130440976073598129496664524602949520194690954475162933485035264173219930349735011824914434142921034169723326387571538733789070862272954583013864136550722089630574529752567822942910470241208113651153581275910489139546315220537122196506449439342864585453823452519273847486174655006071169259214490222552023698457392233648431053785980627302410784600958103524878376915891601303313626315388715123784372493806453457453784444625718134613816324334170215140337079890989628082808219819049942777868535374287910024133246153848144761840230528661101060131341514082070512566947778834616587780224730179975203414642073257123733104285560880743349921218460048598047185856165233258868798623189443495672433289101800910765838377095499611660930694189798945504749861160551096448710518995076204070493024376023228282379818472557347400842776431846535445711136198946972868984629158923920256987017380082313761063659566297469466862219698056272993859811150134460839514183734501005748939403310971793357126113597630888390740886453596202738238079391350485491007444584106222246003114362685280002018503155873029570152081587375510895744846191864154345609620611191605174617828651768913388318045825943622035842243595735655743961020399453190711245982174763112955510909408802785970732992266202932717890624630409501660370241789597918548861125192047518731411553734566952755501951077561041003680148874875239129589067359391992280164957000926237023202194574675579175066298340858502173745635405030900893525634906905021739980048773090744091439213563531674822361297690839219099215767213455945477327235364658480316013906550148657376778910841042239321883587864803236986951461962418289736866128080696571132949326148252511205403828321315051963360007326071825864302477293922078387956480593429953771453952958373321687202055842061333488404669833775735175778965849603900272888063218136949977100664371372284646889422183503103125690800595073687263210805891574389042335931944630865923609161690158744992446681705303477901452191764693947703253269050040632569134943205767431316291136085342016590231926998044602797267475028718320765299079603911518938647078648662612648246487281568874646229335943651950318734169595227140180617059123985621869205322430341775385026131498532097160165278168302256882451681394283060640034818775641950478992004192850051278997843700692759657126288688515177188579545478881790942384668025870223258810977333093189028577795044002986685687775494699492150519820337770207637800605289779925485103944850301504672571341859338577735152368713451879957292030550937968383657488024057900966614593271456127338134096321501730386636348200310173492430822729367375588304273717206421951065443433863328307393294997201615433000852121459770286010513468695946803445653702183584449100460265603517062235585534993961677876360962096110619726668096496108843000579883641752361175183444999288949085037817743233889798246900549295249995695259461838092423445744227265243244536481920037574354593122264547989453263667625529024407371466331758532341645428379140550670746228838374065985695980299568860874249570167336906763610721954160659734715884517388721548694056951127473248221273891937075272680984081241887392927063684726351138796630481862264207938243267905840614889184202710781699977438621911372954217146955015086853341356035640041361659632339876489469517994671034558779632359676013103425635277176761937559881913693385065119488557142631443267394569936084353543920717691703029014982685148649519798138513969810537596211493597740893921236907371098558619276259223478921471479700043953604685234909921861234018107998151339879080569799374025392111873143563534548841032658555094818448092129068342273601897326972857419225513675077118201046610279359246962746988604573079940136411757565088913473697175212699334390571457948360760278744019458625931560068259271247621099228188262436582168965007664121221980201110564835508782362369591155044519810427467329523222268447408513100293097247587229659357825371341739435928139637701799391067209051570332845102168089597526063696033170971389589877540918386094380801918131027989914198015088145987896795009864461270489222663836676822439543489880245817285407803690222443124290885009092696328887642374425801815340168463975372881132209970705655042942951022229923579519002744438664909306130449319549904228032867816829433473750906986755326575073551564807265284139086356290875775318773672432372507864437512869436770423253530954879466332946207487358654770146375874702560641359451270382820573030569967861409462836412707191978465138114596017901381322431993308185649349416806573515689421780938261572337228178572849407007553769840809477136642981276408488338617252031724763104361697157455565291407092136977953605628160633956292320271613969012749808929004295341745847692992912420616439672765753648723678220785485086528316381217689864471484671440632558591527598720214891545087674598951910219458256500606264705251268469780457569853457218243159157123267496643892862782446741445957279962048655707626194654355247547048594715551024813797354025057463731308478429544463360801513298252841280372670099751310537138056002298893423699262778718120884015952311351470161226075160199156174831592662703531223573645449128468702855274200262903455748315619833162526867835338610623229664622340737675128569277515010451942865208855592225600540016688858242188393793987896338970236469200013613954658283391979826374048148719671565996265943928461176495640902735386998274583539792408461451541989122270751783816009532936240570261947319315930748709015870808177596372039553662284436450943816595263647727359775792292470509864153256323896961357163923622552239469903661483243335713757805264239925233492395234869233523509834828045799903142500811993968567367364426197418970980004494802553373256885687142187136974102668268385048096814895468259796434236126369072578452634261079086341134659105812309622195395419596975591495236161716446530404721741714934194516952642779460651301030145232643564830602763130818056233317363760036734169973014567162948159698329879700580700502972383730024550511546400629078287991774975345956009458596525971457013139589408522863258302730898664905842490077345590634701819591194155766339483324155794743714493462195044619915643806906912223091083827416988102176510550065114122866436819781062922073982656343848072782422929660444603790400489519130017069701206509065872130921633217337934358121825484683611598484173391680914816241903732800049121023304326321117103262894404281726507538140613044989286469490760401588934505723693923851379626525439609137508446715805167830398903754071049284656006455077934657039702455456688264900156568510394970784363407352801116565115931765622275007314226984052239528241168016799186797084611406889310413998695661675900118442187761851372963740709371511057455012583490523356003801620880619159127014034350704490531670049873335970763519261239650889359499885965719828761128589961341627467246230799524674212726181560355232590246596639517915993298460018547355403320904317066996828979049285056685257450294006539791845694212795419323438108467362021745791494674321081550128275299518599983331371474317981092150689963152237431848196864789481431879238993734579363294803620907340876234805144335650429925478792839760404803854337163832915878284981347122833175602936302105869531391063700801645629395448216106788285011082030982797356477061543781997879782053572111292294195525184244059416448315685165358204675577347299979573504888358544077174530483641147633979337862485342272057644531531302899396864188655966729139725193792403867056897564080825366261467529142742504673188551185960076750996448479024033053068583501819782366290872513327291559379819964458944101536960541270108987942069945684164600443767445846400608423638725793734419584728650511225268227224074424281067153978929415109409177886556029513578632917730624916971411843135592499862586874949404274803907575315440211097009759042935384899662268046838801207827139503148555489149428344982373770202529007231992218258358382560401282918349354983176129744789979672070724976038595944663740205295930900050570575830950394705382330370357295057224946495706011890466685178602785125966344601694083397969442589117359631209570371265460404128407577475005527399422591113518037163830878081487470584004028459056186112746225317969705279763203543143827935587860992817485330497892916235407908957572951894583010527675946616904402619498707467760258510603560783928886583314290023945065319165693887648379737689707844778299315857816336915651871217244938248800849435406474450607683328798749906742177007624850516839998645736146171572873335488276846669782482721170934959180416968724041843388163986372224930663023521241763410002080459162300294134222306979940606256787787490755476813535842218880205394454160108618754226328202009563700621160844179406270324327184633971851339220764624822733237013860865942483547208043397510689236127674332353896768142104109567315258858057847718071147608185645501965836708920191974241407967373818263511504186994038539669510348570398035993408840491844363444911786353616026431523831369469783195962818045748199120246033264425438991349380451832981374450822409793190923933269887340675811023275125189496723599205142374325884645576709107924081005413661580583487252372906238004822783109542984988911427996677802788782216855181267046233264935922490043864056403805071926595992082553558843621347304160932439165089480791784305005600823907626714591252361109726039486590671639424685645810021613032047085667280023570707709045356837620962209886173182723149034467536188884897267326584788000494092314149161871106394854624211826218566074245073638673135266555033649469897965629878296700362217262476163896998237807543799110099035596608084008417164823336983556909028888192952291298837468781709016946699894081886999036694191776524442733757171455020171529565846987968018019975406289790533065728047989102650278645734329406800294347827424434919996011600549468957106123435281915910813521493708438939098229259504840833885915728200098946505315109453236360885742021725911674512697315676847982334989046206786583598014679948887743586437487532621446036616890780013632755469699040253373680939973367708332904096464969286313401778339189044325764537881593983505860861586150538936399246110383236833044791646134709961130019311167021803816666776956661542613221161390802256978940014516593963707598944930665025121100311461262806002606200024128726086668175600442617976294523966732609285025311352825678909981775673441520656671917880861188926660736864686837503854981418256621361184176315449069807921305900425756537391501278875307904286985087877873914168991837967614306254041938852165214595257099746441201781381378015249060892542053260122685448359822740846959687114752106021418571014359874894037152135344468436220553269256775343833819707463045000214548224345803785032314539017262763020827630622526239149765836454031449763683715286142271868832533874205332433181609949203268097598336042487066743177095291259906496324534140409798837915572434813007334630874491232947789335717352308500045712644805712805113585679330617025312738620607563667874509074397501350066512150498787346111895147057457870600494715060974859155594812971396615879939303001912580560432989953359229425690401548452481742877777859343046109003509717355768114156647138743552421506939552129754284110747258610610268417952423859422420139305551277878091892704936860237246343457321499945853498425159920035013506103529073770655278289017286358474353679171678181573924950634368353780234606959343698161928166690506410897852214677776874932970397272433186530966511356170180122458859198541523689947175687820627948805725940157896375575423206051441631158547469723201250915484221186468180952749422255501596252874838340887605695356872399106479897943800721847211627092160310804210645145010184488064522360220361249422033653058692238950025086261465442439323555364013202714198062694281885573397422697208705566809563238219224430278864975705217547826851266212705343652288656763430561525097667051389102788173078137619418397817739349601399357168379969325332043573024442942285979474229984798560585015176434486596523411676211899367360564248155073263815133934388947275689492796460705815433666458491035779560093584146589310749328728515781628667231315961083773025681909680055400649221255714752077697620463826743293391284109323052296031618032689481011958110996606099113629988293710833359920784411484271738172141718625173962094021980165538101069246003428130326515563266157645493904927668999044596029494656491892792729912774361671717186552807947776061742947586601214193473005741378618281147343990885088668704685269227040218289698395291301333769011355417814659288684327846349703154460555975762399178950388656572749192308386503465715635088059725314178733544058526133166970378124166682819828560118310298685911144033616299993806172050905530759118091367140872999234683584553058634083744562577113623236113801235446982707494502634416704808513864090298798981230080809261559852188222466512626964526317170394211298166455735613476820434569184052487627948300891582300789528113584607975364745243607248679458624206790750619969127611167929096156905233996788487520763779257880160238306556459789841192265511754922597395795955795935584319205080396613763820781118328611057713738871274695735389716548812381140287651880161713762171783098169492061384322960881308707315569850548230683973142702779512656784983737898919323828606684023951543174750878583468911853741648324538593420330147371108600658875307749031712872215449324864586111973387533515203842643203176589429050661272055550022251224785564855925283450599856016713309344440565594141830898261820664379299886220220647166727593903296536416757125118418167625579108733464733894479944560526172879580264387128695114741170459324263181418349691151254437356407939989065285615057133081566581617493425732676822287742974007934574288381133982900090992939994668268575906737538983801452736085781387130784922177060547508400329727513975331745940163399031128605785075611812299902930780823074226658175047356215091621646627960664184709702673423928520734021451068577846043800075766506044221384436311244232701668744504738837899848426533010466399045570976839479566333611555173665810644581045255140189573133784194377045317440959405397535180071973069384020006350182006883710544709427426297910187580386752137646951882730740846998683751393641433151419087964733389882513536181553041522906736610263014391155411042872901429862386306826371909433506487240702624458149823199673094759677372007648630322133339743766230744129703228650704936358294698898807266750429748125760841362750384071398102342931894149975245553498109896742823410251613174640754044334425607333038021592354805396117295707956479531394294119006518067183657290405466065482945613680345120285268333343947691679899169354708516815683508517309161419162820070273629536914704815237469286294859594736452956316620408823395200784689730166001916553323042663076361151104734654027605694145189321751907432827919708003471317377044803691437234140322589658687417208129568098143961915340285116638907617801839094182521304836362547416210574952043430935155252819591971734133323367054388715816642441945518063096926653165285622292266955133087974594140494264856506914497030460468430009445512269294475681818973899200406188177419366719532064038083977234018519157254113849114134705503103010892338968912323438624039580708967461418577936437267897398130137093065631158014937107833065913125044985943814605871546928770429484907011315691070000677678052020223016280350515207034032708041804399751115510061674914419274750648456326825287861534476790843457820860623154396772628446186508510903591248159291491410729925763374198048029664423110061973387680891523548080125435656972096299898464308381749113391936604560392902688330710814741478710371161594718433608988422011190753564976507555765756964095736975007942910180162386270821359466521669041763358764472411692382929669666262044573863689564028273723597563564360630926743096704553929850349594740780747517515605341079499118314623024983448034336523171054792841069311788526919400503522533219519985520110196804583220217320909466836181373628534537480161809768716375926987794182862965602153811128595385840918635718420584603901822929839196117215682394045046588895083888115863600355286269905843722431943871062186224188070791226531836866520370418848444515227561477177276643924497458346757440440632140829445557542233540157358520805280591612997710381051011359732216834671247153324224846459143442194958330963483245170863879893856664642329445408317473842337351595736756533358171712506972991219763817527920664147375144817603972719005088387933351311942060331284503775632581675407385399399088988793293786694698832457585357130137925049055629129739662202475364480158992186962485854082994993136920659243838121398329141137130542271449361615967707828799226027486597151100633695431472389024670310121288534916109734660499374131795360710146085762156815970270910914259655692812012053986174821378143771373816914323089298021630853314502318737099920328964356419924461826180776386300348657884189324955649695574620766073546885554641319490691760830674870126798929143812724396623411062455928473494965392052802125925444448287222884672364213835106136685027112420696220493918442510960277483360622829574002097418200336725467415714406816435050030355997464943401278848688381618050517430885457764257134584725801751651573124225566248205088459566836033595424367150463728632991291259364730912688227561591872470067759925442332040827156836338266965836936764584153755839135457050796677891312913263282830696244809981092741925307105318740090625684875443984112328310345645813693499187304652315025246152690949379007107949835868682152806282153311838250976236850999425078390335532191922328927804567036862298349944170543333168250583209846752272868097380478057464074356402992887095119351713345158005425235857142699703439422404311174206277340855560325650694446247626274201160840912552678986994190410312916851634313496311982244302729823493857190929181135895226905890591494066859387674470020495026685888176848457539795775197714371164725782751240450102927892031244242127770974389041027328067865606838775594771623823158762151192937534917019740668752738969674365163367768712886095720088122376970715621019137575157739126101986440872655846843832919900870366154345145936087080514481576510306805631848747487121786472433813066624387317263007734561372259278925956269921988304902020545178118558156814837672868952715930181313605535506465536598765045427688155616454748209539578204825431038357982631050852597247063361799904252348406986235402414964454536948740687813691505609058095427832075455244352842374020206749380510534599045509276360926074290002926364500883919594759994533261064323487829224442164925681249261218653818876003648230822554089848635419460340248744695956579967784908067302724250247503397786442961195090497256240070537684543686535455582079309075433713819700569474931234967942761627816081769350951678857954773396516011412685699887854210812267104272131225868773915225112188441241555958203115026380375486146171272887440371307127507438465079363799114642873379740085607090475701301964771803094745866533635800375997746970571933580545279448789229608719938459065107584333852554160236566219870923127668157701249902582204480262952749365464196427623996267398389221725930960908664664230410324297752124157674539743139754919230327270781480147431397746831303622423143723749131765662781685058471306078230651746899257576287842395849925547256976841871861965965280771006382013433451803013848699979923211372239405583982252754383190757220822554213107399741940417174452492981645659480811192359838643695007672352018411879887993349973331373741616545068179347421441442826105740453379985602172453019142327060627806449626052964249029050063408951806292967269963287766424300173574726000636507169816388476254298718157995505881607412258095523691361543937193214096677563252056460298517083659540684244979767496552617589945094807624710929853575662686856280627140394485989141895303068773335630361628992514364259490289677169185755591592532771325740400505991372302862425896013472504348508625760847991105475377898269346933219855560261730193823191423140749528430379899431492503426868482258447550748028677409068958504525942134560870240561543616226124062080571671409082047521813343562328959217314605953090580768471030089397635944159143512207108860053480803694676119753411225906493017986098436646685062964388106908148728055840649641112888084209551214524375307216506566787884258348948418684014093517400776387106872715611695485582997031892781552555289029775082883400286628903753713255324447452554942241916429312654420711303719921194698304039003923688934193001129051085587916363159113196275853764508477892208595593483416275531753032071382272099592567819308306580792141480006828917313511360677420611608263190759602344920136342626456961552823341054317992439653853553372329565901789972029590304481880409079028038556857379598444397763693709162492264441705716422080893623683934064834497592422868253021798028907874574685711726806989281152146257275100820313595721379482633624059421336370368089488964718000030768301112580793140316370511653680462969458893312571310085160900124345395808554529858583586433232655709604397663568453917108450532329770151645333210797068072809233398785495921952650343101551335855921805731158190877748571350879075779037976876728628715946530928277578595461534888802863550978185865312137112272201711980547325735211473521336614730670106648866897524276709165230318793550781260730814767717830462826002197615930907803159280371121195228140049480037300541296569497775652051524072270382308965789284826073296933569860835792655994822543122183514030012076237234673410597882382386870182170915639554159054585956509589394724618185036084465357191670736557358841293113184696387035876540190868216335765418016550971573073437853865269161619449157121424126803255159322201525021000857677605050811085280684115262148000536675414456577195736500996525252295215951326495285526913553825842078951095779804696797687855552320800588595132433617111159570981969426179991211196990075771590880758689527307000560047330604814349060665090160117463810292675600947512140715046770337000980033816271190874048544845690408506708398857397200574880609642916154346714387170671776085795059395598999343692871948195533431255452130491391144555539821315458373757697608564749647967178879400763059928323958539272326399973535594362727277892936979686340552591458472242558485533994684062013621323795638120838943648247036821145178747022972363123175742433332863804951898625137968150517362013183003365011632280493461223917219833000596907492920220552999498717747648935265486767110701753810888914773594440993260920217636929591736240899422053063321858253054858468769492103921737932664074955234271609031663410192091176856937981785880093619668408628237352154507486058172121335096323839701998675263748462018147386961539383780744039477361218941918267181752094990011638934502254168236257497732878157703485174197926469922017889232789993831211518729495951365506864648448167706135808379972583821299084137591412175455116042348902383475807712581503696015769448053636049925095415389636003248356121087937992185537367753626807975105411484851080779792871489673360808588580812203836812045764039570482495533996053875664692302851757212336829350399833266242848028863163974372436081443875669308991528247650775338391614224031596904136917671903718014116090189454978469740149675321271738377657908985145590553917095295123659067721886667892981401574552504766920118009079059130049655072654147506484011279347361909314203500097377276883987155112910527486073058729510096552869613369853331844979991787729463111251356547747054805466039723802736716786675217086475428498968906590888980691497471084955649342542689301215523037298185182115114347607348051693497274887358471815097659639282200353693554749832170992532414400769363651098034518410480787236902042568529645322860189629206108482250802463552239831517330479697791549763640030202130192783372931245129441016855789177232366838617884132897129898002420273814288678385928939353559722475707728027379750279524879423427900127560556601978285843047476332899615239286541611423054004669470123013220714451231791849048326045832666648158372337661601459032234606425285578237277437161044875890317323549767581539364592795653409491354795206170239558729360963756101565978389377034331244093649849456125291064370838237178162052026410681804499263969422850362631194966596600096487523791673414705107040894693834125478320466081468181528525681894553629676657686309540289544595408372648279017247777688208916923532937523270014474504967638652300544137086363839244459127519127784571616351719823478353165776718607922105883479383311557455957098451507621218161959684795326544058913728911380248312539079068869700634728097735164833603319729527247771427479998335294987859951023983819699647870377218168503318572060473594557932407903770833276715338735304048649768481898230559297883741947744682809107683532724449722879419597886918139933251590858458120611974083079701207534603459177918627884017066200262178674523464870767483065258628544788188958977318643191216208285487437258988501223578798942527404869842488610657518209925448531295215578602166673629528121172459399413076797425103368322913397876283713937000060423385552330788576654730657624056077134219268648244706206108946210715160494230758634930430982980277774244770807835163162510599960213498356191957033859786894724058148172219368949818824491618175053890418677213809650495855584446992739467381665158499184805187692618250958171873688072696197070941716986992962449996229632872340307109684174562390984449557081254766191011075783583304534235514465572864786864059059552396928401260524570421671566278933428294886101041332918219781003672427592180525236941754779214134957766418252472159504137860726028944015456502347091527456717080389010261513851815879772242626825973589866309215421682566775212620116763454871900762197427390226146091749656848333193045719567418361586488127096474950792382066386408330258526923598863443669129045625426238175093120186370098404961767515415297807570747521026002880441920809227704538228417910147702598598289847156384320855999125737069851658514806298448648273640999203799171384594188515123240561222893684564633966843406677568451080882200657886389151916352324622573229190980119874107165285717326181889885896685653229481205560887846685779995253360767694467219236282128403995591918580641227204699238455746704665509632505750700582039964988345925780846524166879168869686272695318403790633361291167647624812071681214636695251289742696922894239114728749379902118458047807366213703914095415529238472044094948921378869237558752946074056522081993291623308695333892992385736259518906717148719471327599323682166100152216114543694296643386072401451245655638089828775361978043526247415464398565476132437637594800454455299663567913535141526722431670518736256515576117945069375054080542039902388490787742530304693802593588289028517155203712165889241202825560083675159899288965526619401129216219110313872455650002820287118441968366071378883088706891680553300903054926145771707056371513770565932520953691741611922077049625449302955727197678142201258042224622518157320808053660548538159654924673423285304457971381572142683160105673991041187720791866208175938729489528606254650410367312732660937290902374193826185361055926626065228835804530961680609327362737038398558671992843225362341592504826877548591448722515046963470311779799502536565380215023780758804481507947593507505478547911864850074144743423812197696646276597603594246413735649364484372159028221782898406567964133443125805573934615755258197475234662346274579113410442676091637880432975840133751803822794007660168496350054920380444652469319505532417322506467035069407316519967912862430359616347213928843380615113660237559514026946229005109082760620651677540121376515146315192391840667740283338939338585609656822265731305438098417409674913341822580848828476757183638527233275378141880755136814772377566283001439123026947618595377647601614578238921442336939577932236147842955913163117875032686304467535619275589309419208599409418499279314395159422337815580989850869561489929186369965954827863886884988670833930745055520035179228755996033737402236135320979558868865190380050408068912086066956350729901192663406671999217751815522890828778873644346959163806372380522585740981301217547392338269851813918780654896905713097583565423606375408121589883665015451463658612756951978639409512590427918563782346987457229689956216021987535850932223960749738556401573642364472066139070687637289522547034394876793742862070486290757193128586937450000699951554827808375393515617723549471352870622617060966149236066430706591491040706073858651573925616293870825632694179238651264955476971513928662563611990066787515020434541401444407625904467477467612659316867786996590823602624612984216060799488291886713001638380237895548239834843277742319919623870837629240954553816831585324218338174770873541464117288481492880379728688943111461154849562762051648789942998995853943509687753306867326897963887934832784032272224405881157742852769694883857981631921832988179698368073809398202937492502701536119817491672157218574379782247474672428343385989225150404485518792809019192830050409387814696263942063707077780697592175235526956438274594504325365973777896895278642108146587807584117611470199214742062039736586823319114458588428013155191715706082709066195482957509566557005894617952968741838562731646903533565765749679645120269754191960723240206071654018971115498809808746382997529796470598487394176284837957844120627114169707043855656106728259097965614622963808658391288538769754718899952697238077321909932719993187644236211452705666572925069372139556548855455701732564851793051672208419396125055370589814077463336995688221779953356255063014023946710928977029047798896202098169077330760203495136302561572065532763419705464126948525776802822664946287759075118412534026279139727770267533495224013513735134430658251949485601562148618687715901288220170338995002026459611975212141623479178831240816679836583964195060367805322303938722180246084875134438581253778012347974589845496264955757799905223723486627595112081577911110687692763779281942593557794019644714803214839530971532119426182958339495780928290127894487837312800996573089712569992739959806717478634052781401560594003586501247631561074099138739284710225708228655438570380785493737308440540259597161588775100798866879064880230981457854920259032844573965547448714852900161952955596976121765894978849747595966919045246891383362477858399713294720153167783101284285334668867231110085431997121406850895868771591864569225181241246617904385088227213610605871863330216559603403085813838780313122828834052260726940430082034348856921939886986830672510461420464972287287189454174315491831588554271672009793873372467712989737042030009358895255039933414997256406847049826605270847090574201570768617700817380608139587235221438658431543093517578716705100017931236227341909659769706030635168676561451186467400402344510117113708285493740235746180841162867415816040631468808248672652762517914355889720358262769059513560062585689916884232498497599619795452043551720307344323645430942384821935047147000861932675420737120860120717443636376057868371425703098206914247493981882437083504294454327589948518015420975367658241065971256273901995547113942951017767912980861472822671949654837197439551804616981960908531178886343767721995894685439425831893150269811880631438149912135829419962784731950361270536874249905790765172688518387657406223852638972496676984466969470810528463187000264019774578114560179614567650438702223075292523508981584868496329239868264088189129147662228935297883447539696515896786862151459434239200365681858075489015496356647591440649285822804994033203314260023192264789154474327236659840044941078965775951687741450060085179929911502350749281949290010055144718914871726608176818266143038548330777406629766196373139786504516554186186173753568933097194509246981910972417293738964765724044863428954952556596273215803668321800884026143975189672828133537155800261426394772138054307788994897087894087899154578101049066964696916879897988379636571242179237191626798479664074086092781848943380766295412814862256035393220762902018672306617211322246490022149862478606340144987246765235002705867361838212423834013933359530756525657960777804544807486825711023423401165138796608120039810772292251785883260086024363417118662208778106525209508615109118913009587074548162096288214338741307341598053415428948164124687901608064094201472764542915086252058807674383287112414269284007756706229565730413695696379773450644014956746862934556784693523866380983395159267637388816787284903338187294895954540492813615146745362655086778828411239973766496977359246775671282531092426252762504201360875266779761843997128392299844311138128314568424174007169736003849086265696981258525855884812935274178311275912553878638684347877597756765442223098136531807576922237145413307953057310369371957695604519579475802952123393573597701279694488455147186656009258483159089862515381846474054714940244543004249839785035478718680986872581229981891116527001680635849543502789408721931615542565092287047760839223573438139211694760163099320693444459325965939667120016973080410865331087021495352330628167073507547510444352837882055089496506725479070713388464360864068545676045878999702490338182196350401577987047860146222971405810852313464786771565043678594616213845688358236430812220936885929695174645588420175264997731565479389427001504735435600977476992342048461460093150739622931151821142639718917113793879121330259947227443519547018082703475326621863872732775499483145558543608741125196242686587472158597093386072114348084771235969708396941755956597171853397745835279285326767634617584202351567110855521138362704773775179943430760921336882127054537846677613154513934151450416517450757865251539484565747811422913175747463532499262792282216945396836683206959992396985596938142815892126182899014807740638225417905377757695046957465999664556153867431663399169508284622490101220933303653445139730299981420436214134866596698006081710602928078214495282154702126756902469433327079061550211173810684533368647086685272478833068251348863110401823028826802777842922334202205021523914437085805821101039428819949738860732270476919449222127196942699237743871348495041009827925856654912022549954234416219771414952867355063842602395047394307109967951137574795739677684673685225343762979332436439714898157285456969005529670278910346535417285063496498203820686947012862810682206158940812479149613431183242049205584409071815118142776012656206742629892834790754810495195893086970317703407664256064536506962287952023909049994966182605450098127927258832171902969573059494685670178980351252809568334696187342103490100575949966490772781721301661148879421421573065194429737564391695341042372268395363102161378017674034079798645302112235830110146097231758580627816578510092317592896941417678735299615818155126259091022371312043795599182940434171316540679129330942556062481303084767024096039048630765707970193328569005740327694470929402782678429256444421544337075907219984282819902878189957390700362899140197510755585038280955934037011264000546040535561351429930376741163358085405038336515050099195096718919136827726335878563918507051865878346291428216411063643891216883582228751968143419743684350382692234682708393004047975721573217486064153511158158258080637561929226133188729767923654984969215073717254521735105251899153679999242866948110117162993178639724146041726468342585153998866658213127959032065223957290003567434345747614076976883207105390842425977637660075180744890853397112993629083910856400566887138543640584494859979711722455635375695977548402052445532631114963651476377424363012199738039220513770345940438538061166344273121710925963395205979546013602482103988533771579326349293840656432629494241866927779720959553902717613113616452278096891508153617188232994475144647591176033767446451089618029522127450890846818074017716540159949362189223455699697727780523372611898720164977257511339851941698370274257577540547998756294828882324859088267060413123007687322129216223536378086581113797010271923045523028589232866041767520256713137817611175864947868749082563245584314239240279247304830995883360126678817191997625040894692646215940805169057684532294938901037822512859626563100636126671899458115751846966035805611860963684089393564904332796241492987139153647990026638808589952683626572838461005141686122602651141458565186425813787377805980687211634866550521943121158984318483958852465117680491998484755384488809412295780722161853524761879808824562942484232369340513554904125736866272136473064406512712562571602452960303273733796467448124915222931886239502663117461382845520920817475029159755749716705883736035765607520339079249565564367228415725277565929426687719680610419355689679627625482835627318079390280503144645342975342934742659453825938452942969787518147006910288382501732087956920603611580074126001850037463074873042361595884311810536763071329647289767592974337237898778303985181600144466854170794703190894691584358157378318668240002111995566685507517529818699002982297897075724932411256695221163939555716991874802432830960010704494487250413657251091959581080417741276708625069442991144047264571116884914856280970023164030254612128145159847621428083947649540819853836645211193679332183450108777549536162983553495755500903599341137537630375498632548093607231799564161973346549126727641897550097234681067233348002150777687185757788191219594611463235789077616529016436067387193775485422820636256357197935900316897336740663693800361442030425859873353456645515891071057679377195302690051933751883601070137997558278095869382603912282085350002843821558562425682483488173250599695772072343661006652863335711140223767928185029692528182177606006977988126226800279433680430328145002581948655208611365209869768790283932695319112953438604445095810386503862901139444579887177042499402570796017296133696491731434811405834201320374744346254799558005624338683314079410964074408352771775817197754187123455533982754192137072026163179113472443948015711967010806011404758223534957138588531070938936582797274475966115954919082306250054916157692479189170338866674119827555109422069523145515514558517591028699101281698940646257317452668096500762815394530769582795736092413709993799594783928923239304436004203800090568870990473457421157978864165105599131605056853504244226197982144184403742965761035577373012475703753748917134046104381325865626430923599497511692010991759196267377780917148064905506840919284014021980569474643178740382473120436517984931885472325731234061434603442384519906564498050005658963707661908651012903796400486078551796919200658078638350533473673932488833662036644691710134162298186099114222341374944898597463720301086543346459238422801183395204533895275406459339177650200539361843637206185814996404765988595039542204459348182408962250834116254613020939594

/-- Raw table entry for board `b`, side `isMax`: the value plus 10. -/
def tblRaw (b : Nat) (isMax : Bool) : Nat :=
  Nat.land (Nat.shiftRight tblGiant (Nat.add (Nat.mul 10 b) (cond isMax 5 0))) 31

/-- Table entry as the signed score in `[-10, 10]`. -/
def tblVal (b : Nat) (isMax : Bool) : Int := Int.ofNat (tblRaw b isMax) - 10

/-- Depth bias at distance one, on raw (offset) values: move a nonzero score
one step toward the draw value. -/
def shiftOneRaw (r : Nat) : Nat := if 10 < r then r - 1 else if r < 10 then r + 1 else 10

/-- Depth bias at distance one on signed scores. -/
def shiftOne (x : Int) : Int := if 0 < x then x - 1 else if x < 0 then x + 1 else 0

/-- Depth bias at depth `d`: the depth-`d` minimax value of a board in terms
of its depth-0 value. -/
def shiftv (x : Int) (d : Nat) : Int :=
  if 0 < x then x - (d : Int) else if x < 0 then x + (d : Int) else 0

/-- Magnitude invariant of a raw table value with `e` empty cells: the draw
value, or within distance `e` of one of the ends 0 and 20. -/
def invRaw (r e : Nat) : Bool := r == 10 || (r ≤ 20 && (20 - e ≤ r || r ≤ e))

/-- The maximizing (`'O'`-placing) strict-update fold of the one-step-biased
table entries of the children of `b`, from 0; and the minimizing
(`'X'`-placing) fold from 20 — the raw-value image of AI_minimax's two
loops. -/
def sideFold (b : Nat) (isMax : Bool) : Nat :=
  if isMax then
    cellsRM.foldl (fun a p =>
      if getCell b p.1 p.2 = 0 then
        (fun v => if v > a then v else a) (shiftOneRaw (tblRaw (setCell b p.1 p.2 2) false))
      else a) 0
  else
    cellsRM.foldl (fun a p =>
      if getCell b p.1 p.2 = 0 then
        (fun v => if v < a then v else a) (shiftOneRaw (tblRaw (setCell b p.1 p.2 1) true))
      else a) 20

/-- Check of one side's table entry at an ongoing board: it equals the fold
of its children's biased entries and satisfies the magnitude invariant. -/
def sideOngoing (b : Nat) (isMax : Bool) : Bool :=
  withNat (tblRaw b isMax) fun r =>
    r == sideFold b isMax && invRaw r (emptyCountN b)

/-- Per-board check that the table satisfies AI_minimax's recursion: at a
terminal board both entries hold the (durationless) evaluation; at an
ongoing board each side whose move it can be satisfies `sideOngoing`. -/
def fpCheck (b : Nat) : Bool :=
  if Game_checkWin b = -1 then tblRaw b true == 20 && tblRaw b false == 20
  else if Game_checkWin b = 1 then tblRaw b true == 0 && tblRaw b false == 0
  else if Game_checkWin b = 0 then tblRaw b true == 10 && tblRaw b false == 10
  else
    (!countsOK b true || sideOngoing b true) && (!countsOK b false || sideOngoing b false)

/-- Conjunction of `f` over `lo + k` for `k < n`, kernel-friendly. -/
def checkRange (lo : Nat) : Nat → (Nat → Bool) → Bool
  | 0, _ => true
  | n+1, f => f (lo + n) && checkRange lo n f

/-- The best-value/best-move tracking part of the AI_findBestMove_impl scan
loop, over an already-scored candidate list: update only on strict `>`. -/
def trackFold (cl : List Candidate) (a : Int × Move) : Int × Move :=
  cl.foldl (fun acc c =>
    if c.score > acc.1 then (c.score, ⟨(c.r : Int), (c.c : Int)⟩) else acc) a

/-- The candidate list of a board with all scores read from the game-value
table instead of running the search (`candidatesOf_eq_T` equates the two on
reachable boards). -/
def candidatesT (b : Nat) : List Candidate :=
  (legalMovesRM b).map (fun p => ⟨p.1, p.2, tblVal (setCell b p.1 p.2 2) false⟩)

/-- The best top-level score of a board, read from the game-value table. -/
def bestScoreT (b : Nat) : Int :=
  ((candidatesT b).map (fun c => c.score)).foldl (fun a v => if v > a then v else a)
    (-2147483647)

/-! ## Representation lemmas: reading and writing base-3 digits -/

theorem getCell_def (b i j : Nat) : getCell b i j = b / 3 ^ (3 * i + j) % 3 := rfl

theorem setCell_def (b i j v : Nat) :
    setCell b i j v =
      b % 3 ^ (3 * i + j) + v * 3 ^ (3 * i + j) + b / 3 ^ (3 * i + j + 1) * 3 ^ (3 * i + j + 1) :=
  rfl

theorem getCell_lt (b i j : Nat) : getCell b i j < 3 :=
  Nat.mod_lt _ (by norm_num)

theorem setCell_getCell_self (b i j : Nat) : setCell b i j (getCell b i j) = b := by
  rw [setCell_def, getCell_def, pow_succ]
  have h1 : b % 3 ^ (3 * i + j) + b / 3 ^ (3 * i + j) % 3 * 3 ^ (3 * i + j)
      = b % (3 ^ (3 * i + j) * 3) := by
    rw [Nat.mod_mul]; ring
  rw [h1]
  exact Nat.mod_add_div' b _

theorem getCell_setCell_self (b i j v : Nat) (hv : v < 3) :
    getCell (setCell b i j v) i j = v := by
  rw [setCell_def, getCell_def, pow_succ]
  have hp : 0 < 3 ^ (3 * i + j) := pow_pos (by norm_num) _
  have h : b % 3 ^ (3 * i + j) + v * 3 ^ (3 * i + j)
        + b / (3 ^ (3 * i + j) * 3) * (3 ^ (3 * i + j) * 3)
      = b % 3 ^ (3 * i + j) + (v + b / (3 ^ (3 * i + j) * 3) * 3) * 3 ^ (3 * i + j) := by
    ring
  rw [h, Nat.add_mul_div_right _ _ hp, Nat.div_eq_of_lt (Nat.mod_lt _ hp), Nat.zero_add,
    Nat.add_mul_mod_self_right]
  exact Nat.mod_eq_of_lt hv

theorem setCell_setCell (b i j v w : Nat) (hv : v < 3) :
    setCell (setCell b i j v) i j w = setCell b i j w := by
  have hp : 0 < 3 ^ (3 * i + j) := pow_pos (by norm_num) _
  have hlt : b % 3 ^ (3 * i + j) + v * 3 ^ (3 * i + j) < 3 ^ (3 * i + j) * 3 := by
    have h1 : b % 3 ^ (3 * i + j) < 3 ^ (3 * i + j) := Nat.mod_lt _ hp
    have h2 : v * 3 ^ (3 * i + j) ≤ 2 * 3 ^ (3 * i + j) :=
      Nat.mul_le_mul_right _ (by omega)
    linarith
  conv_lhs => rw [setCell_def, setCell_def, pow_succ]
  conv_rhs => rw [setCell_def, pow_succ]
  have e1 : (b % 3 ^ (3 * i + j) + v * 3 ^ (3 * i + j)
        + b / (3 ^ (3 * i + j) * 3) * (3 ^ (3 * i + j) * 3)) % 3 ^ (3 * i + j)
      = b % 3 ^ (3 * i + j) := by
    have h : b % 3 ^ (3 * i + j) + v * 3 ^ (3 * i + j)
          + b / (3 ^ (3 * i + j) * 3) * (3 ^ (3 * i + j) * 3)
        = b % 3 ^ (3 * i + j) + (v + b / (3 ^ (3 * i + j) * 3) * 3) * 3 ^ (3 * i + j) := by
      ring
    rw [h, Nat.add_mul_mod_self_right]
    exact Nat.mod_eq_of_lt (Nat.mod_lt _ hp)
  have e2 : (b % 3 ^ (3 * i + j) + v * 3 ^ (3 * i + j)
        + b / (3 ^ (3 * i + j) * 3) * (3 ^ (3 * i + j) * 3)) / (3 ^ (3 * i + j) * 3)
      = b / (3 ^ (3 * i + j) * 3) := by
    rw [Nat.add_mul_div_right _ _ (by positivity : 0 < 3 ^ (3 * i + j) * 3),
      Nat.div_eq_of_lt hlt, Nat.zero_add]
  rw [e1, e2]

theorem setCell_clear (b i j v : Nat) (hv : v < 3) (h : getCell b i j = 0) :
    setCell (setCell b i j v) i j 0 = b := by
  rw [setCell_setCell b i j v 0 hv, ← h, setCell_getCell_self]

/-! ## The search loop: board restoration and score characterization -/

theorem legalFold_nil (rec mark cmb acc) : legalFold rec mark cmb [] acc = acc := rfl

theorem legalFold_cons (rec mark cmb p cs acc) :
    legalFold rec mark cmb (p :: cs) acc =
      legalFold rec mark cmb cs
        (if getCell acc.2.board p.1 p.2 = 0 then
          let s1 : SState := ⟨Game_makeMove acc.2.board p.1 p.2 mark, acc.2.nodesSearched, acc.2.maxDepthReached⟩
          let vs := rec s1
          let s3 : SState := ⟨Game_makeMove vs.2.board p.1 p.2 0, vs.2.nodesSearched, vs.2.maxDepthReached⟩
          (cmb vs.1 acc.1, s3)
        else acc) := rfl

/-- Characterization of the shared search loop: it restores the board, and its
value is the plain fold of the scores of the legal cells of the (unchanged)
board, scores taken on fresh counters. -/
theorem legalFold_spec (rec : SState → Int × SState) (mark : Nat) (cmb : Int → Int → Int)
    (hmark : mark < 3)
    (hb : ∀ s, (rec s).2.board = s.board)
    (hv : ∀ s n m, (rec s).1 = (rec ⟨s.board, n, m⟩).1) :
    ∀ (cs : List (Nat × Nat)) (a : Int) (s : SState),
      (legalFold rec mark cmb cs (a, s)).2.board = s.board ∧
      (legalFold rec mark cmb cs (a, s)).1 =
        ((cs.filter (fun p => getCell s.board p.1 p.2 == 0)).map
          (fun p => (rec ⟨setCell s.board p.1 p.2 mark, 0, 0⟩).1)).foldl (fun a v => cmb v a) a := by
  intro cs
  induction cs with
  | nil => intro a s; exact ⟨rfl, rfl⟩
  | cons p cs IH =>
    intro a s
    rw [legalFold_cons]
    by_cases hleg : getCell s.board p.1 p.2 = 0
    · simp only [hleg, eq_self_iff_true, if_true]
      set vs := rec ⟨Game_makeMove s.board p.1 p.2 mark, s.nodesSearched, s.maxDepthReached⟩
        with hvsdef
      have hvs : vs.2.board = setCell s.board p.1 p.2 mark := hb _
      have hval : vs.1 = (rec ⟨setCell s.board p.1 p.2 mark, 0, 0⟩).1 := hv _ 0 0
      have hs3 : Game_makeMove vs.2.board p.1 p.2 0 = s.board := by
        show setCell vs.2.board p.1 p.2 0 = s.board
        rw [hvs]; exact setCell_clear _ _ _ _ hmark hleg
      rw [hs3]
      have hIH := IH (cmb vs.1 a) ⟨s.board, vs.2.nodesSearched, vs.2.maxDepthReached⟩
      refine ⟨hIH.1, ?_⟩
      rw [hIH.2]
      simp only [List.filter_cons, hleg, beq_self_eq_true, eq_self_iff_true, if_true,
        List.map_cons, List.foldl_cons]
      rw [hval]
    · simp only [hleg, if_false]
      have hIH := IH a s
      refine ⟨hIH.1, ?_⟩
      rw [hIH.2]
      simp only [List.filter_cons]
      have hf : (getCell s.board p.1 p.2 == 0) = false := by simp [hleg]
      rw [hf]
      simp

/-- AI_minimax restores the board it searches (every apply is undone), and
its score does not depend on the incoming instrumentation counters. -/
theorem minimaxF_inv (fuel : Nat) :
    ∀ st d x, (minimaxF fuel st d x).2.board = st.board ∧
      (minimaxF fuel st d x).1 = (minimaxF fuel ⟨st.board, 0, 0⟩ d x).1 := by
  induction fuel with
  | zero => intro st d x; exact ⟨rfl, rfl⟩
  | succ fuel IH =>
    intro st d x
    have hb : ∀ (xx : Bool) (dd : Nat) (s : SState), (minimaxF fuel s dd xx).2.board = s.board :=
      fun xx dd s => (IH s dd xx).1
    have hv : ∀ (xx : Bool) (dd : Nat) (s : SState) (n m : Nat),
        (minimaxF fuel s dd xx).1 = (minimaxF fuel ⟨s.board, n, m⟩ dd xx).1 := by
      intro xx dd s n m
      rw [(IH s dd xx).2, (IH ⟨s.board, n, m⟩ dd xx).2]
    by_cases h10 : AI_evaluate st.board = 10
    · simp only [minimaxF, h10, eq_self_iff_true, if_true]
      constructor <;> trivial
    · by_cases hm10 : AI_evaluate st.board = -10
      · simp only [minimaxF, h10, hm10, eq_self_iff_true, if_true, if_false]
        constructor <;> trivial
      · by_cases hmv : Game_isMovesLeft st.board
        · simp only [minimaxF, h10, hm10, hmv, if_false, Bool.not_true, if_true]
          cases x
          · have S1 := legalFold_spec (fun s => minimaxF fuel s (d + 1) true) 1
              (fun v a => if v < a then v else a) (by norm_num) (hb true (d + 1))
              (fun s n m => hv true (d + 1) s n m) cellsRM 2147483647
              ⟨st.board, st.nodesSearched + 1,
                if d > st.maxDepthReached then d else st.maxDepthReached⟩
            have S2 := legalFold_spec (fun s => minimaxF fuel s (d + 1) true) 1
              (fun v a => if v < a then v else a) (by norm_num) (hb true (d + 1))
              (fun s n m => hv true (d + 1) s n m) cellsRM 2147483647
              ⟨st.board, 0 + 1, if d > 0 then d else 0⟩
            exact ⟨S1.1, S1.2.trans S2.2.symm⟩
          · have S1 := legalFold_spec (fun s => minimaxF fuel s (d + 1) false) 2
              (fun v a => if v > a then v else a) (by norm_num) (hb false (d + 1))
              (fun s n m => hv false (d + 1) s n m) cellsRM (-2147483647)
              ⟨st.board, st.nodesSearched + 1,
                if d > st.maxDepthReached then d else st.maxDepthReached⟩
            have S2 := legalFold_spec (fun s => minimaxF fuel s (d + 1) false) 2
              (fun v a => if v > a then v else a) (by norm_num) (hb false (d + 1))
              (fun s n m => hv false (d + 1) s n m) cellsRM (-2147483647)
              ⟨st.board, 0 + 1, if d > 0 then d else 0⟩
            exact ⟨S1.1, S1.2.trans S2.2.symm⟩
        · simp only [minimaxF, h10, hm10, hmv, if_false, Bool.not_false, if_true]
          constructor <;> trivial

/-! ## The strict-update folds compute extrema -/

theorem foldl_maxStep_ge_init {α : Type} [LinearOrder α] (l : List α) (a : α) :
    a ≤ l.foldl (fun a v => if v > a then v else a) a := by
  induction l generalizing a with
  | nil => exact le_refl a
  | cons x l IH =>
    simp only [List.foldl_cons]
    refine le_trans ?_ (IH (if x > a then x else a))
    split
    · exact le_of_lt ‹_›
    · exact le_refl a

theorem foldl_maxStep_ge_mem {α : Type} [LinearOrder α] (l : List α) (a : α) (x : α)
    (hx : x ∈ l) : x ≤ l.foldl (fun a v => if v > a then v else a) a := by
  induction l generalizing a with
  | nil => cases hx
  | cons y l IH =>
    simp only [List.foldl_cons]
    rcases List.mem_cons.mp hx with rfl | hx
    · refine le_trans ?_ (foldl_maxStep_ge_init l _)
      split
      · exact le_refl x
      · exact le_of_not_lt ‹_›
    · exact IH _ hx

theorem foldl_maxStep_mem {α : Type} [LinearOrder α] (l : List α) (a : α) :
    l.foldl (fun a v => if v > a then v else a) a = a ∨
      l.foldl (fun a v => if v > a then v else a) a ∈ l := by
  induction l generalizing a with
  | nil => exact Or.inl rfl
  | cons x l IH =>
    simp only [List.foldl_cons]
    rcases IH (if x > a then x else a) with h | h
    · rw [h]
      split
      · exact Or.inr (List.mem_cons_self _ _)
      · exact Or.inl rfl
    · exact Or.inr (List.mem_cons_of_mem _ h)

theorem foldl_minStep_le_init {α : Type} [LinearOrder α] (l : List α) (a : α) :
    l.foldl (fun a v => if v < a then v else a) a ≤ a := by
  induction l generalizing a with
  | nil => exact le_refl a
  | cons x l IH =>
    simp only [List.foldl_cons]
    refine le_trans (IH (if x < a then x else a)) ?_
    split
    · exact le_of_lt ‹_›
    · exact le_refl a

theorem foldl_minStep_le_mem {α : Type} [LinearOrder α] (l : List α) (a : α) (x : α)
    (hx : x ∈ l) : l.foldl (fun a v => if v < a then v else a) a ≤ x := by
  induction l generalizing a with
  | nil => cases hx
  | cons y l IH =>
    simp only [List.foldl_cons]
    rcases List.mem_cons.mp hx with rfl | hx
    · refine le_trans (foldl_minStep_le_init l _) ?_
      split
      · exact le_refl x
      · exact le_of_not_lt ‹_›
    · exact IH _ hx

theorem foldl_minStep_mem {α : Type} [LinearOrder α] (l : List α) (a : α) :
    l.foldl (fun a v => if v < a then v else a) a = a ∨
      l.foldl (fun a v => if v < a then v else a) a ∈ l := by
  induction l generalizing a with
  | nil => exact Or.inl rfl
  | cons x l IH =>
    simp only [List.foldl_cons]
    rcases IH (if x < a then x else a) with h | h
    · rw [h]
      split
      · exact Or.inr (List.mem_cons_self _ _)
      · exact Or.inl rfl
    · exact Or.inr (List.mem_cons_of_mem _ h)

theorem isMovesLeft_legal_ne_nil {b : Nat} (h : Game_isMovesLeft b = true) :
    legalMovesRM b ≠ [] := by
  intro hnil
  rcases List.any_eq_true.mp h with ⟨p, hp, hp0⟩
  have : p ∈ legalMovesRM b := List.mem_filter.mpr ⟨hp, hp0⟩
  rw [hnil] at this
  cases this

/-- AI_minimax scores stay inside the terminal band `[-10, 10]` whenever the
depth plus the remaining fuel cannot overshoot it. -/
theorem minimaxF_succ_eval10 (fuel : Nat) (st : SState) (d : Nat) (x : Bool)
    (h : AI_evaluate st.board = 10) :
    minimaxF (fuel+1) st d x = (10 - (d : Int),
      ⟨st.board, st.nodesSearched + 1,
        if d > st.maxDepthReached then d else st.maxDepthReached⟩) := by
  simp only [minimaxF, h, eq_self_iff_true, if_true]

theorem minimaxF_succ_evalm10 (fuel : Nat) (st : SState) (d : Nat) (x : Bool)
    (h : AI_evaluate st.board = -10) :
    minimaxF (fuel+1) st d x = (-10 + (d : Int),
      ⟨st.board, st.nodesSearched + 1,
        if d > st.maxDepthReached then d else st.maxDepthReached⟩) := by
  simp only [minimaxF, h]
  norm_num

theorem minimaxF_succ_draw (fuel : Nat) (st : SState) (d : Nat) (x : Bool)
    (h10 : ¬AI_evaluate st.board = 10) (hm10 : ¬AI_evaluate st.board = -10)
    (h : Game_isMovesLeft st.board = false) :
    minimaxF (fuel+1) st d x = (0,
      ⟨st.board, st.nodesSearched + 1,
        if d > st.maxDepthReached then d else st.maxDepthReached⟩) := by
  simp only [minimaxF, h10, hm10, h, if_false, Bool.not_false, if_true]

theorem minimaxF_succ_max (fuel : Nat) (st : SState) (d : Nat)
    (h10 : ¬AI_evaluate st.board = 10) (hm10 : ¬AI_evaluate st.board = -10)
    (hmv : Game_isMovesLeft st.board = true) :
    minimaxF (fuel+1) st d true = legalFold (fun s => minimaxF fuel s (d + 1) false) 2
      (fun v a => if v > a then v else a) cellsRM (-2147483647,
      ⟨st.board, st.nodesSearched + 1,
        if d > st.maxDepthReached then d else st.maxDepthReached⟩) := by
  simp only [minimaxF, h10, hm10, hmv, if_false, Bool.not_true, Bool.false_eq_true,
    eq_self_iff_true, if_true]

theorem minimaxF_succ_min (fuel : Nat) (st : SState) (d : Nat)
    (h10 : ¬AI_evaluate st.board = 10) (hm10 : ¬AI_evaluate st.board = -10)
    (hmv : Game_isMovesLeft st.board = true) :
    minimaxF (fuel+1) st d false = legalFold (fun s => minimaxF fuel s (d + 1) true) 1
      (fun v a => if v < a then v else a) cellsRM (2147483647,
      ⟨st.board, st.nodesSearched + 1,
        if d > st.maxDepthReached then d else st.maxDepthReached⟩) := by
  simp only [minimaxF, h10, hm10, hmv, if_false, Bool.not_true, Bool.false_eq_true, if_true]

theorem minimaxF_bounds (fuel : Nat) : ∀ st d x, d + fuel ≤ 20 →
    -10 ≤ (minimaxF fuel st d x).1 ∧ (minimaxF fuel st d x).1 ≤ 10 := by
  induction fuel with
  | zero => intro st d x _; constructor <;> norm_num [minimaxF]
  | succ fuel IH =>
    intro st d x hd
    have hb : ∀ (xx : Bool) (dd : Nat) (s : SState), (minimaxF fuel s dd xx).2.board = s.board :=
      fun xx dd s => (minimaxF_inv fuel s dd xx).1
    have hv : ∀ (xx : Bool) (dd : Nat) (s : SState) (n m : Nat),
        (minimaxF fuel s dd xx).1 = (minimaxF fuel ⟨s.board, n, m⟩ dd xx).1 := by
      intro xx dd s n m
      rw [(minimaxF_inv fuel s dd xx).2, (minimaxF_inv fuel ⟨s.board, n, m⟩ dd xx).2]
    by_cases h10 : AI_evaluate st.board = 10
    · rw [minimaxF_succ_eval10 fuel st d x h10]
      constructor
      · show (-10 : Int) ≤ 10 - (d : Int)
        omega
      · show (10 : Int) - (d : Int) ≤ 10
        omega
    · by_cases hm10 : AI_evaluate st.board = -10
      · rw [minimaxF_succ_evalm10 fuel st d x hm10]
        constructor
        · show (-10 : Int) ≤ -10 + (d : Int)
          omega
        · show (-10 : Int) + (d : Int) ≤ 10
          omega
      · by_cases hmv : Game_isMovesLeft st.board
        · have hne : legalMovesRM st.board ≠ [] := isMovesLeft_legal_ne_nil hmv
          cases x
          · rw [minimaxF_succ_min fuel st d h10 hm10 hmv]
            have S := legalFold_spec (fun s => minimaxF fuel s (d + 1) true) 1
              (fun v a => if v < a then v else a) (by norm_num) (hb true (d + 1))
              (fun s n m => hv true (d + 1) s n m) cellsRM 2147483647
              ⟨st.board, st.nodesSearched + 1,
                if d > st.maxDepthReached then d else st.maxDepthReached⟩
            rw [S.2]
            set vals := ((cellsRM.filter fun p => getCell st.board p.1 p.2 == 0).map
              fun p => (minimaxF fuel ⟨setCell st.board p.1 p.2 1, 0, 0⟩ (d + 1) true).1)
              with hvals
            have hvbound : ∀ v ∈ vals, -10 ≤ v ∧ v ≤ 10 := by
              intro v hvmem
              rcases List.mem_map.mp hvmem with ⟨p, _, rfl⟩
              exact IH _ (d + 1) true (by omega)
            have hvne : vals ≠ [] := by
              simp only [hvals, ne_eq, List.map_eq_nil_iff]
              exact hne
            rcases foldl_minStep_mem vals (2147483647 : Int) with h | h
            · exfalso
              rcases List.exists_mem_of_ne_nil vals hvne with ⟨v, hvm⟩
              have h1 := foldl_minStep_le_mem vals (2147483647 : Int) v hvm
              rw [h] at h1
              have h2 := (hvbound v hvm).2
              omega
            · exact hvbound _ h
          · rw [minimaxF_succ_max fuel st d h10 hm10 hmv]
            have S := legalFold_spec (fun s => minimaxF fuel s (d + 1) false) 2
              (fun v a => if v > a then v else a) (by norm_num) (hb false (d + 1))
              (fun s n m => hv false (d + 1) s n m) cellsRM (-2147483647)
              ⟨st.board, st.nodesSearched + 1,
                if d > st.maxDepthReached then d else st.maxDepthReached⟩
            rw [S.2]
            set vals := ((cellsRM.filter fun p => getCell st.board p.1 p.2 == 0).map
              fun p => (minimaxF fuel ⟨setCell st.board p.1 p.2 2, 0, 0⟩ (d + 1) false).1)
              with hvals
            have hvbound : ∀ v ∈ vals, -10 ≤ v ∧ v ≤ 10 := by
              intro v hvmem
              rcases List.mem_map.mp hvmem with ⟨p, _, rfl⟩
              exact IH _ (d + 1) false (by omega)
            have hvne : vals ≠ [] := by
              simp only [hvals, ne_eq, List.map_eq_nil_iff]
              exact hne
            rcases foldl_maxStep_mem vals (-2147483647 : Int) with h | h
            · exfalso
              rcases List.exists_mem_of_ne_nil vals hvne with ⟨v, hvm⟩
              have h1 := foldl_maxStep_ge_mem vals (-2147483647 : Int) v hvm
              rw [h] at h1
              have h2 := (hvbound v hvm).1
              omega
            · exact hvbound _ h
        · simp only [Bool.not_eq_true] at hmv
          rw [minimaxF_succ_draw fuel st d x h10 hm10 hmv]
          constructor
          · show (-10 : Int) ≤ 0
            norm_num
          · show (0 : Int) ≤ 10
            norm_num

/-! ## The game-value table satisfies AI_minimax's recursion -/

theorem withNat_eq (x : Nat) (f : Nat → Bool) : withNat x f = f x := by
  cases x <;> rfl

theorem checkRange_true (lo : Nat) :
    ∀ n f, checkRange lo n f = true → ∀ k, k < n → f (lo + k) = true := by
  intro n
  induction n with
  | zero => intro f _ k hk; cases hk
  | succ n IH =>
    intro f h k hk
    rw [checkRange] at h
    simp only [Bool.and_eq_true] at h
    rcases h with ⟨h1, h2⟩
    rcases Nat.lt_succ_iff_lt_or_eq.mp hk with hlt | rfl
    · exact IH f h2 k hlt
    · exact h1

set_option maxRecDepth 1000000 in
theorem fp_part0 : checkRange 0 2500 fpCheck = true := by decide!

set_option maxRecDepth 1000000 in
theorem fp_part1 : checkRange 2500 2500 fpCheck = true := by decide!

set_option maxRecDepth 1000000 in
theorem fp_part2 : checkRange 5000 2500 fpCheck = true := by decide!

set_option maxRecDepth 1000000 in
theorem fp_part3 : checkRange 7500 2500 fpCheck = true := by decide!

set_option maxRecDepth 1000000 in
theorem fp_part4 : checkRange 10000 2500 fpCheck = true := by decide!

set_option maxRecDepth 1000000 in
theorem fp_part5 : checkRange 12500 2500 fpCheck = true := by decide!

set_option maxRecDepth 1000000 in
theorem fp_part6 : checkRange 15000 2500 fpCheck = true := by decide!

set_option maxRecDepth 1000000 in
theorem fp_part7 : checkRange 17500 2183 fpCheck = true := by decide!

/-- Every board's table entries satisfy AI_minimax's recursion equations
(`fpCheck`), assembled from the kernel-checked range scans. -/
theorem fpAll : ∀ b, b < 19683 → fpCheck b = true := by
  intro b hb
  have get : ∀ lo n, checkRange lo n fpCheck = true → lo ≤ b → b < lo + n →
      fpCheck b = true := by
    intro lo n hc hlo hhi
    have h := checkRange_true lo n fpCheck hc (b - lo) (by omega)
    rwa [Nat.add_sub_cancel' hlo] at h
  by_cases h1 : b < 2500
  · exact get 0 2500 fp_part0 (by omega) (by omega)
  by_cases h2 : b < 5000
  · exact get 2500 2500 fp_part1 (by omega) (by omega)
  by_cases h3 : b < 7500
  · exact get 5000 2500 fp_part2 (by omega) (by omega)
  by_cases h4 : b < 10000
  · exact get 7500 2500 fp_part3 (by omega) (by omega)
  by_cases h5 : b < 12500
  · exact get 10000 2500 fp_part4 (by omega) (by omega)
  by_cases h6 : b < 15000
  · exact get 12500 2500 fp_part5 (by omega) (by omega)
  by_cases h7 : b < 17500
  · exact get 15000 2500 fp_part6 (by omega) (by omega)
  exact get 17500 2183 fp_part7 (by omega) (by omega)

theorem fp_win_O {b : Nat} (hb : b < 19683) (h : Game_checkWin b = -1) (m : Bool) :
    tblRaw b m = 20 := by
  have hfp := fpAll b hb
  rw [fpCheck, h] at hfp
  simp only [eq_self_iff_true, if_true, Bool.and_eq_true, beq_iff_eq] at hfp
  cases m
  · exact hfp.2
  · exact hfp.1

theorem fp_win_X {b : Nat} (hb : b < 19683) (h : Game_checkWin b = 1) (m : Bool) :
    tblRaw b m = 0 := by
  have hfp := fpAll b hb
  rw [fpCheck, h] at hfp
  norm_num [Bool.and_eq_true, beq_iff_eq] at hfp
  cases m
  · exact hfp.2
  · exact hfp.1

theorem fp_draw {b : Nat} (hb : b < 19683) (h : Game_checkWin b = 0) (m : Bool) :
    tblRaw b m = 10 := by
  have hfp := fpAll b hb
  rw [fpCheck, h] at hfp
  norm_num [Bool.and_eq_true, beq_iff_eq] at hfp
  cases m
  · exact hfp.2
  · exact hfp.1

theorem fp_ongoing {b : Nat} (hb : b < 19683) (h : Game_checkWin b = 2) (m : Bool)
    (hco : countsOK b m = true) :
    tblRaw b m = sideFold b m ∧ invRaw (tblRaw b m) (emptyCountN b) = true := by
  have hfp := fpAll b hb
  rw [fpCheck, h] at hfp
  norm_num [Bool.and_eq_true] at hfp
  have key : sideOngoing b m = true := by
    cases m
    · rcases hfp.2 with hx | hx
      · rw [hco] at hx; cases hx
      · exact hx
    · rcases hfp.1 with hx | hx
      · rw [hco] at hx; cases hx
      · exact hx
  rw [sideOngoing, withNat_eq] at key
  simp only [Bool.and_eq_true, beq_iff_eq] at key
  exact key

/-! ## Depth bias: shifting scores commutes with the extremum folds -/

theorem shiftv_zero (x : Int) : shiftv x 0 = x := by
  simp only [shiftv]
  split_ifs <;> omega

theorem shiftv_succ (x : Int) (d : Nat) (hx : x = 0 ∨ (d : Int) + 1 ≤ x ∨ x ≤ -((d : Int) + 1)) :
    shiftv x (d + 1) = shiftv (shiftOne x) d := by
  simp only [shiftv, shiftOne]
  push_cast
  split_ifs <;> omega

theorem shiftv_mono (d : Nat) {y z : Int}
    (hy : y = 0 ∨ (d : Int) < y ∨ y < -(d : Int))
    (hz : z = 0 ∨ (d : Int) < z ∨ z < -(d : Int)) (h : y ≤ z) :
    shiftv y d ≤ shiftv z d := by
  simp only [shiftv]
  split_ifs <;> omega

theorem shiftv_lb (x : Int) (d : Nat) (h : -10 ≤ x) : -10 - (d : Int) ≤ shiftv x d := by
  simp only [shiftv]
  split_ifs <;> omega

theorem shiftv_ub (x : Int) (d : Nat) (h : x ≤ 10) : shiftv x d ≤ 10 + (d : Int) := by
  simp only [shiftv]
  split_ifs <;> omega

/-- Push a depth shift through the maximizing fold. -/
theorem shiftv_foldmax (d : Nat) (hd : d ≤ 20) (l : List Int) (hne : l ≠ [])
    (hband : ∀ y ∈ l, y = 0 ∨ (d : Int) < y ∨ y < -(d : Int))
    (hbounds : ∀ y ∈ l, -10 ≤ y ∧ y ≤ 10) :
    (l.map (fun y => shiftv y d)).foldl (fun a v => if v > a then v else a) (-2147483647) =
      shiftv (l.foldl (fun a v => if v > a then v else a) (-2147483647)) d := by
  set L := l.foldl (fun a v => if v > a then v else a) (-2147483647) with hL
  set R := (l.map (fun y => shiftv y d)).foldl (fun a v => if v > a then v else a)
    (-2147483647) with hR
  have hLmem : L ∈ l := by
    rcases foldl_maxStep_mem l (-2147483647 : Int) with h | h
    · exfalso
      rcases List.exists_mem_of_ne_nil l hne with ⟨v, hvm⟩
      have h1 := foldl_maxStep_ge_mem l (-2147483647 : Int) v hvm
      rw [h] at h1
      have h2 := (hbounds v hvm).1
      omega
    · exact h
  have hRmem : R ∈ l.map (fun y => shiftv y d) := by
    rcases foldl_maxStep_mem (l.map (fun y => shiftv y d)) (-2147483647 : Int) with h | h
    · exfalso
      rcases List.exists_mem_of_ne_nil l hne with ⟨v, hvm⟩
      have h1 := foldl_maxStep_ge_mem (l.map (fun y => shiftv y d)) (-2147483647 : Int)
        (shiftv v d) (List.mem_map_of_mem _ hvm)
      rw [h] at h1
      have h2 := shiftv_lb v d (hbounds v hvm).1
      omega
    · exact h
  rcases List.mem_map.mp hRmem with ⟨y0, hy0, hy0eq⟩
  have h1 : R ≤ shiftv L d := by
    rw [← hy0eq]
    exact shiftv_mono d (hband y0 hy0) (hband L hLmem) (foldl_maxStep_ge_mem l _ y0 hy0)
  have h2 : shiftv L d ≤ R :=
    foldl_maxStep_ge_mem _ _ (shiftv L d) (List.mem_map_of_mem _ hLmem)
  omega

/-- Push a depth shift through the minimizing fold. -/
theorem shiftv_foldmin (d : Nat) (hd : d ≤ 20) (l : List Int) (hne : l ≠ [])
    (hband : ∀ y ∈ l, y = 0 ∨ (d : Int) < y ∨ y < -(d : Int))
    (hbounds : ∀ y ∈ l, -10 ≤ y ∧ y ≤ 10) :
    (l.map (fun y => shiftv y d)).foldl (fun a v => if v < a then v else a) 2147483647 =
      shiftv (l.foldl (fun a v => if v < a then v else a) 2147483647) d := by
  set L := l.foldl (fun a v => if v < a then v else a) (2147483647 : Int) with hL
  set R := (l.map (fun y => shiftv y d)).foldl (fun a v => if v < a then v else a)
    (2147483647 : Int) with hR
  have hLmem : L ∈ l := by
    rcases foldl_minStep_mem l (2147483647 : Int) with h | h
    · exfalso
      rcases List.exists_mem_of_ne_nil l hne with ⟨v, hvm⟩
      have h1 := foldl_minStep_le_mem l (2147483647 : Int) v hvm
      rw [h] at h1
      have h2 := (hbounds v hvm).2
      omega
    · exact h
  have hRmem : R ∈ l.map (fun y => shiftv y d) := by
    rcases foldl_minStep_mem (l.map (fun y => shiftv y d)) (2147483647 : Int) with h | h
    · exfalso
      rcases List.exists_mem_of_ne_nil l hne with ⟨v, hvm⟩
      have h1 := foldl_minStep_le_mem (l.map (fun y => shiftv y d)) (2147483647 : Int)
        (shiftv v d) (List.mem_map_of_mem _ hvm)
      rw [h] at h1
      have h2 := shiftv_ub v d (hbounds v hvm).2
      omega
    · exact h
  rcases List.mem_map.mp hRmem with ⟨y0, hy0, hy0eq⟩
  have h1 : shiftv L d ≤ R := by
    rw [← hy0eq]
    exact shiftv_mono d (hband L hLmem) (hband y0 hy0) (foldl_minStep_le_mem l _ y0 hy0)
  have h2 : R ≤ shiftv L d :=
    foldl_minStep_le_mem _ _ (shiftv L d) (List.mem_map_of_mem _ hLmem)
  omega

/-! ## Bridging raw table folds to signed score folds -/

theorem foldl_guard {α : Type} (b : Nat) (g : α → Nat → α) (f : Nat × Nat → Nat) :
    ∀ (cs : List (Nat × Nat)) (a : α),
      cs.foldl (fun a p => if getCell b p.1 p.2 = 0 then g a (f p) else a) a =
        ((cs.filter (fun p => getCell b p.1 p.2 == 0)).map f).foldl g a := by
  intro cs
  induction cs with
  | nil => intro a; rfl
  | cons p cs IH =>
    intro a
    simp only [List.foldl_cons, List.filter_cons]
    by_cases hleg : getCell b p.1 p.2 = 0
    · simp only [hleg, eq_self_iff_true, if_true, beq_self_eq_true, List.map_cons,
        List.foldl_cons]
      exact IH _
    · have hf : (getCell b p.1 p.2 == 0) = false := by simp [hleg]
      simp only [hleg, if_false, hf]
      exact IH _

theorem sideFold_max_eq (b : Nat) :
    sideFold b true =
      ((legalMovesRM b).map (fun p => shiftOneRaw (tblRaw (setCell b p.1 p.2 2) false))).foldl
        (fun a v => if v > a then v else a) 0 := by
  show (cellsRM.foldl (fun a p =>
      if getCell b p.1 p.2 = 0 then
        (fun v => if v > a then v else a) (shiftOneRaw (tblRaw (setCell b p.1 p.2 2) false))
      else a) 0) = _
  exact foldl_guard b (fun a v => if v > a then v else a)
    (fun p => shiftOneRaw (tblRaw (setCell b p.1 p.2 2) false)) cellsRM 0

theorem sideFold_min_eq (b : Nat) :
    sideFold b false =
      ((legalMovesRM b).map (fun p => shiftOneRaw (tblRaw (setCell b p.1 p.2 1) true))).foldl
        (fun a v => if v < a then v else a) 20 := by
  show (cellsRM.foldl (fun a p =>
      if getCell b p.1 p.2 = 0 then
        (fun v => if v < a then v else a) (shiftOneRaw (tblRaw (setCell b p.1 p.2 1) true))
      else a) 20) = _
  exact foldl_guard b (fun a v => if v < a then v else a)
    (fun p => shiftOneRaw (tblRaw (setCell b p.1 p.2 1) true)) cellsRM 20

theorem foldmax_raw_int (rs : List Nat) (hne : rs ≠ []) :
    (rs.map (fun r : Nat => (r : Int) - 10)).foldl (fun a v => if v > a then v else a)
        (-2147483647) =
      ((rs.foldl (fun a v => if v > a then v else a) 0 : Nat) : Int) - 10 := by
  set N := rs.foldl (fun a v => if v > a then v else a) 0 with hN
  set Z := (rs.map (fun r : Nat => (r : Int) - 10)).foldl (fun a v => if v > a then v else a)
    (-2147483647 : Int) with hZ
  have hZmem : Z ∈ rs.map (fun r : Nat => (r : Int) - 10) := by
    rcases foldl_maxStep_mem (rs.map (fun r : Nat => (r : Int) - 10)) (-2147483647 : Int)
      with h | h
    · exfalso
      rcases List.exists_mem_of_ne_nil rs hne with ⟨v, hvm⟩
      have h1 := foldl_maxStep_ge_mem (rs.map (fun r : Nat => (r : Int) - 10))
        (-2147483647 : Int) ((v : Int) - 10) (List.mem_map_of_mem _ hvm)
      rw [h] at h1
      omega
    · exact h
  rcases List.mem_map.mp hZmem with ⟨y0, hy0, hy0eq⟩
  have hy0N : y0 ≤ N := foldl_maxStep_ge_mem rs 0 y0 hy0
  have hub : Z ≤ (N : Int) - 10 := by
    rw [← hy0eq]
    omega
  have hlb : (N : Int) - 10 ≤ Z := by
    rcases foldl_maxStep_mem rs 0 with h0 | hmem
    · rcases List.exists_mem_of_ne_nil rs hne with ⟨v, hvm⟩
      have hv0 : v ≤ N := foldl_maxStep_ge_mem rs 0 v hvm
      have h2 : ((v : Int) - 10) ≤ Z :=
        foldl_maxStep_ge_mem _ _ _ (List.mem_map_of_mem _ hvm)
      omega
    · have h2 : ((N : Int) - 10) ≤ Z :=
        foldl_maxStep_ge_mem _ _ _ (List.mem_map_of_mem _ hmem)
      omega
  omega

theorem foldmin_raw_int (rs : List Nat) (hne : rs ≠ []) (h20 : ∀ r ∈ rs, r ≤ 20) :
    (rs.map (fun r : Nat => (r : Int) - 10)).foldl (fun a v => if v < a then v else a)
        2147483647 =
      ((rs.foldl (fun a v => if v < a then v else a) 20 : Nat) : Int) - 10 := by
  set N := rs.foldl (fun a v => if v < a then v else a) 20 with hN
  set Z := (rs.map (fun r : Nat => (r : Int) - 10)).foldl (fun a v => if v < a then v else a)
    (2147483647 : Int) with hZ
  have hZmem : Z ∈ rs.map (fun r : Nat => (r : Int) - 10) := by
    rcases foldl_minStep_mem (rs.map (fun r : Nat => (r : Int) - 10)) (2147483647 : Int)
      with h | h
    · exfalso
      rcases List.exists_mem_of_ne_nil rs hne with ⟨v, hvm⟩
      have h1 := foldl_minStep_le_mem (rs.map (fun r : Nat => (r : Int) - 10))
        (2147483647 : Int) ((v : Int) - 10) (List.mem_map_of_mem _ hvm)
      rw [h] at h1
      have h2 := h20 v hvm
      omega
    · exact h
  rcases List.mem_map.mp hZmem with ⟨y0, hy0, hy0eq⟩
  have hy0N : N ≤ y0 := foldl_minStep_le_mem rs 20 y0 hy0
  have hlb : (N : Int) - 10 ≤ Z := by
    rw [← hy0eq]
    omega
  have hub : Z ≤ (N : Int) - 10 := by
    rcases foldl_minStep_mem rs 20 with h0 | hmem
    · rcases List.exists_mem_of_ne_nil rs hne with ⟨v, hvm⟩
      have hv0 : N ≤ v := foldl_minStep_le_mem rs 20 v hvm
      have hv20 := h20 v hvm
      have h2 : Z ≤ ((v : Int) - 10) :=
        foldl_minStep_le_mem _ _ _ (List.mem_map_of_mem _ hvm)
      omega
    · have h2 : Z ≤ ((N : Int) - 10) :=
        foldl_minStep_le_mem _ _ _ (List.mem_map_of_mem _ hmem)
      omega
  omega

/-! ## Mark counting under a single-cell write -/

theorem setCell_lt {b : Nat} {p : Nat × Nat} (hp : p ∈ cellsRM) (hb : b < 19683) {v : Nat}
    (hv : v < 3) : setCell b p.1 p.2 v < 19683 := by
  fin_cases hp <;> (simp only [setCell_def]; norm_num; omega)

theorem getCell_eq_mod (b i j : Nat) : getCell b i j = b % 3 ^ (3 * i + j + 1) / 3 ^ (3 * i + j) := by
  have hp : 0 < 3 ^ (3 * i + j) := pow_pos (by norm_num) _
  rw [getCell_def, pow_succ, Nat.mod_mul, Nat.add_mul_div_left _ _ hp,
    Nat.div_eq_of_lt (Nat.mod_lt _ hp), Nat.zero_add]

theorem setCell_div_high (b i j v : Nat) (hv : v < 3) :
    setCell b i j v / 3 ^ (3 * i + j + 1) = b / 3 ^ (3 * i + j + 1) := by
  have hp : 0 < 3 ^ (3 * i + j) := pow_pos (by norm_num) _
  have hlt : b % 3 ^ (3 * i + j) + v * 3 ^ (3 * i + j) < 3 ^ (3 * i + j) * 3 := by
    have h1 : b % 3 ^ (3 * i + j) < 3 ^ (3 * i + j) := Nat.mod_lt _ hp
    have h2 : v * 3 ^ (3 * i + j) ≤ 2 * 3 ^ (3 * i + j) :=
      Nat.mul_le_mul_right _ (by omega)
    linarith
  rw [setCell_def, pow_succ]
  rw [Nat.add_mul_div_right _ _ (by positivity : 0 < 3 ^ (3 * i + j) * 3),
    Nat.div_eq_of_lt hlt, Nat.zero_add]

theorem getCell_setCell_ne (b v : Nat) (hv : v < 3) (i j i' j' : Nat)
    (hne : 3 * i' + j' ≠ 3 * i + j) :
    getCell (setCell b i j v) i' j' = getCell b i' j' := by
  rcases Nat.lt_or_ge (3 * i' + j') (3 * i + j) with hlt | hge
  · rw [getCell_eq_mod, getCell_eq_mod]
    congr 1
    obtain ⟨e, he⟩ : 3 ^ (3 * i' + j' + 1) ∣ 3 ^ (3 * i + j) := pow_dvd_pow 3 hlt
    obtain ⟨f, hf⟩ : 3 ^ (3 * i' + j' + 1) ∣ 3 ^ (3 * i + j + 1) := pow_dvd_pow 3 (by omega)
    rw [setCell_def, he, hf]
    have hre : b % (3 ^ (3 * i' + j' + 1) * e) + v * (3 ^ (3 * i' + j' + 1) * e)
          + b / (3 ^ (3 * i' + j' + 1) * f) * (3 ^ (3 * i' + j' + 1) * f)
        = b % (3 ^ (3 * i' + j' + 1) * e)
          + 3 ^ (3 * i' + j' + 1) * (v * e + b / (3 ^ (3 * i' + j' + 1) * f) * f) := by
      ring
    rw [hre, Nat.add_mul_mod_self_left]
    exact Nat.mod_mod_of_dvd b ⟨e, rfl⟩
  · have hgt : 3 * i + j + 1 ≤ 3 * i' + j' := by omega
    have hdiv := setCell_div_high b i j v hv
    have hsplit : (3 : Nat) ^ (3 * i' + j') =
        3 ^ (3 * i + j + 1) * 3 ^ (3 * i' + j' - (3 * i + j + 1)) := by
      rw [← pow_add]
      congr 1
      omega
    rw [getCell_def, getCell_def, hsplit, ← Nat.div_div_eq_div_mul,
      ← Nat.div_div_eq_div_mul, hdiv]

theorem getCell_setCell_off {b v : Nat} (hv : v < 3) {p q : Nat × Nat} (hp : p ∈ cellsRM)
    (hq : q ∈ cellsRM) (hne : q ≠ p) :
    getCell (setCell b p.1 p.2 v) q.1 q.2 = getCell b q.1 q.2 := by
  apply getCell_setCell_ne _ _ hv
  fin_cases hp <;> fin_cases hq <;> first | (exact absurd rfl hne) | decide

theorem cellsRM_nodup : cellsRM.Nodup := by decide

theorem markCount_setCell {b : Nat} {p : Nat × Nat} (hp : p ∈ cellsRM)
    (h0 : getCell b p.1 p.2 = 0) {v : Nat} (hv : v < 3) (w : Nat) (hw : 0 < w) :
    markCount (setCell b p.1 p.2 v) w = markCount b w + (if v = w then 1 else 0) := by
  rcases List.append_of_mem hp with ⟨s, t, hst⟩
  have hnodup : cellsRM.Nodup := cellsRM_nodup
  rw [hst] at hnodup
  have hps : p ∉ s := by
    intro hmem
    exact (List.disjoint_of_nodup_append hnodup) hmem (List.mem_cons_self _ _)
  have hpt : p ∉ t := by
    have := (List.Nodup.of_append_right hnodup)
    exact (List.nodup_cons.mp this).1
  have hcongr : ∀ l : List (Nat × Nat), (∀ q ∈ l, q ∈ cellsRM ∧ q ≠ p) →
      l.filter (fun q => getCell (setCell b p.1 p.2 v) q.1 q.2 == w) =
      l.filter (fun q => getCell b q.1 q.2 == w) := by
    intro l hl
    apply List.filter_congr
    intro q hq
    rw [getCell_setCell_off hv hp (hl q hq).1 (hl q hq).2]
  have hsub : ∀ q ∈ s, q ∈ cellsRM ∧ q ≠ p := by
    intro q hq
    constructor
    · rw [hst]; exact List.mem_append_left _ hq
    · intro h; rw [h] at hq; exact hps hq
  have htub : ∀ q ∈ t, q ∈ cellsRM ∧ q ≠ p := by
    intro q hq
    constructor
    · rw [hst]; exact List.mem_append_right _ (List.mem_cons_of_mem _ hq)
    · intro h; rw [h] at hq; exact hpt hq
  rw [markCount, markCount, hst, List.filter_append, List.filter_append, List.filter_cons,
    List.filter_cons, hcongr s hsub, hcongr t htub]
  have hXp : (getCell (setCell b p.1 p.2 v) p.1 p.2 == w) = (v == w) := by
    rw [getCell_setCell_self _ _ _ _ hv]
  have hbp : (getCell b p.1 p.2 == w) = false := by
    rw [h0]
    simp
    omega
  rw [hXp, hbp]
  by_cases hvw : v = w
  · simp [hvw, List.length_append]
    omega
  · have hf2 : (v == w) = false := by simp [hvw]
    simp [hf2, hvw, List.length_append]

theorem emptyCountN_setCell {b : Nat} {p : Nat × Nat} (hp : p ∈ cellsRM)
    (h0 : getCell b p.1 p.2 = 0) {v : Nat} (hv : v < 3) (hv0 : v ≠ 0) :
    emptyCountN (setCell b p.1 p.2 v) + 1 = emptyCountN b := by
  rcases List.append_of_mem hp with ⟨s, t, hst⟩
  have hnodup : cellsRM.Nodup := cellsRM_nodup
  rw [hst] at hnodup
  have hps : p ∉ s := by
    intro hmem
    exact (List.disjoint_of_nodup_append hnodup) hmem (List.mem_cons_self _ _)
  have hpt : p ∉ t := by
    have := (List.Nodup.of_append_right hnodup)
    exact (List.nodup_cons.mp this).1
  have hcongr : ∀ l : List (Nat × Nat), (∀ q ∈ l, q ∈ cellsRM ∧ q ≠ p) →
      l.filter (fun q => getCell (setCell b p.1 p.2 v) q.1 q.2 == 0) =
      l.filter (fun q => getCell b q.1 q.2 == 0) := by
    intro l hl
    apply List.filter_congr
    intro q hq
    rw [getCell_setCell_off hv hp (hl q hq).1 (hl q hq).2]
  have hsub : ∀ q ∈ s, q ∈ cellsRM ∧ q ≠ p := by
    intro q hq
    constructor
    · rw [hst]; exact List.mem_append_left _ hq
    · intro h; rw [h] at hq; exact hps hq
  have htub : ∀ q ∈ t, q ∈ cellsRM ∧ q ≠ p := by
    intro q hq
    constructor
    · rw [hst]; exact List.mem_append_right _ (List.mem_cons_of_mem _ hq)
    · intro h; rw [h] at hq; exact hpt hq
  rw [emptyCountN, emptyCountN, legalMovesRM, legalMovesRM, hst, List.filter_append,
    List.filter_append, List.filter_cons, List.filter_cons, hcongr s hsub, hcongr t htub]
  have hXp : (getCell (setCell b p.1 p.2 v) p.1 p.2 == 0) = false := by
    rw [getCell_setCell_self _ _ _ _ hv]
    simp [hv0]
  have hbp : (getCell b p.1 p.2 == 0) = true := by
    rw [h0]
    rfl
  rw [hXp, hbp]
  simp [List.length_append]
  omega

theorem emptyCountN_le (b : Nat) : emptyCountN b ≤ 9 :=
  le_trans (List.length_filter_le _ _) (by decide)

theorem countsOK_child_O {b : Nat} {p : Nat × Nat} (hp : p ∈ cellsRM)
    (h0 : getCell b p.1 p.2 = 0) (hco : countsOK b true = true) :
    countsOK (setCell b p.1 p.2 2) false = true := by
  have h1 := markCount_setCell hp h0 (by norm_num : (2 : Nat) < 3) 1 one_pos
  have h2 := markCount_setCell hp h0 (by norm_num : (2 : Nat) < 3) 2 two_pos
  simp only [countsOK, eq_self_iff_true, if_true, Bool.false_eq_true, if_false,
    Bool.or_eq_true, beq_iff_eq] at hco ⊢
  norm_num at h1 h2
  omega

theorem countsOK_child_X {b : Nat} {p : Nat × Nat} (hp : p ∈ cellsRM)
    (h0 : getCell b p.1 p.2 = 0) (hco : countsOK b false = true) :
    countsOK (setCell b p.1 p.2 1) true = true := by
  have h1 := markCount_setCell hp h0 (by norm_num : (1 : Nat) < 3) 1 one_pos
  have h2 := markCount_setCell hp h0 (by norm_num : (1 : Nat) < 3) 2 two_pos
  simp only [countsOK, eq_self_iff_true, if_true, Bool.false_eq_true, if_false,
    Bool.or_eq_true, beq_iff_eq] at hco ⊢
  norm_num at h1 h2
  omega

theorem lineVal_ne_two (c : Nat) : lineVal c ≠ 2 := by
  rw [lineVal]; split_ifs <;> decide

theorem checkWin_ongoing_movesLeft {b : Nat} (h : Game_checkWin b = 2) :
    Game_isMovesLeft b = true := by
  rw [Game_checkWin] at h
  split_ifs at h with h1 h2 h3 h4 h5 h6 h7 h8 h9
  all_goals first
    | assumption
    | (exact absurd h (lineVal_ne_two _))
    | (exact absurd h (by norm_num))

theorem lineVal_ne_zero (c : Nat) : lineVal c ≠ 0 := by
  rw [lineVal]; split_ifs <;> decide

theorem checkWin_cases (b : Nat) : Game_checkWin b = -1 ∨ Game_checkWin b = 1 ∨
    Game_checkWin b = 0 ∨ Game_checkWin b = 2 := by
  rw [Game_checkWin]
  split_ifs
  all_goals first
    | (simp only [lineVal]; split_ifs <;> norm_num)
    | norm_num

theorem checkWin_draw_noMoves {b : Nat} (h : Game_checkWin b = 0) :
    Game_isMovesLeft b = false := by
  rw [Game_checkWin] at h
  split_ifs at h with h1 h2 h3 h4 h5 h6 h7 h8 h9
  all_goals first
    | (simp only [Bool.not_eq_true] at h9; exact h9)
    | (exact absurd h (lineVal_ne_zero _))
    | (exact absurd h (by norm_num))

theorem map_congr_mem {α β : Type} (l : List α) (f g : α → β) (h : ∀ a ∈ l, f a = g a) :
    l.map f = l.map g := by
  induction l with
  | nil => rfl
  | cons x l IH =>
    simp only [List.map_cons]
    rw [h x (List.mem_cons_self _ _), IH (fun a ha => h a (List.mem_cons_of_mem _ ha))]

theorem invRaw_le20 {r e : Nat} (h : invRaw r e = true) : r ≤ 20 := by
  simp only [invRaw, Bool.or_eq_true, Bool.and_eq_true, beq_iff_eq, decide_eq_true_eq] at h
  omega

theorem tblRaw_inv {b : Nat} (hb : b < 19683) {m : Bool} (hco : countsOK b m = true) :
    invRaw (tblRaw b m) (emptyCountN b) = true := by
  rcases checkWin_cases b with hw | hw | hw | hw
  · rw [fp_win_O hb hw m]
    simp [invRaw, Nat.sub_le]
  · rw [fp_win_X hb hw m]
    simp [invRaw, Nat.zero_le]
  · rw [fp_draw hb hw m]
    simp [invRaw]
  · exact (fp_ongoing hb hw m hco).2

theorem shiftOne_raw (r : Nat) (h : r ≤ 20) :
    shiftOne ((r : Int) - 10) = (shiftOneRaw r : Int) - 10 := by
  simp only [shiftOne, shiftOneRaw]
  split_ifs <;> omega

theorem shiftOneRaw_le20 {r : Nat} (h : r ≤ 20) : shiftOneRaw r ≤ 20 := by
  simp only [shiftOneRaw]
  split_ifs <;> omega

theorem childBand {r ec d : Nat} (hr : invRaw r ec = true) (hd : d + ec ≤ 8) :
    ((r : Int) - 10 = 0 ∨ (d : Int) + 1 ≤ (r : Int) - 10 ∨ (r : Int) - 10 ≤ -((d : Int) + 1)) ∧
    (shiftOne ((r : Int) - 10) = 0 ∨ (d : Int) < shiftOne ((r : Int) - 10) ∨
      shiftOne ((r : Int) - 10) < -(d : Int)) ∧
    (-10 ≤ shiftOne ((r : Int) - 10) ∧ shiftOne ((r : Int) - 10) ≤ 10) := by
  simp only [invRaw, Bool.or_eq_true, Bool.and_eq_true, beq_iff_eq, decide_eq_true_eq] at hr
  simp only [shiftOne]
  split_ifs <;> omega

theorem minimaxF_succ_val_max (fuel : Nat) (st : SState) (d : Nat)
    (h10 : ¬AI_evaluate st.board = 10) (hm10 : ¬AI_evaluate st.board = -10)
    (hmv : Game_isMovesLeft st.board = true) :
    (minimaxF (fuel + 1) st d true).1 =
      ((legalMovesRM st.board).map
        (fun p => (minimaxF fuel ⟨setCell st.board p.1 p.2 2, 0, 0⟩ (d + 1) false).1)).foldl
        (fun a v => if v > a then v else a) (-2147483647) := by
  rw [minimaxF_succ_max fuel st d h10 hm10 hmv]
  exact (legalFold_spec (fun s => minimaxF fuel s (d + 1) false) 2
    (fun v a => if v > a then v else a) (by norm_num)
    (fun s => (minimaxF_inv fuel s (d + 1) false).1)
    (fun s n m => ((minimaxF_inv fuel s (d + 1) false).2).trans
      ((minimaxF_inv fuel ⟨s.board, n, m⟩ (d + 1) false).2).symm)
    cellsRM (-2147483647)
    ⟨st.board, st.nodesSearched + 1, if d > st.maxDepthReached then d else st.maxDepthReached⟩).2

theorem minimaxF_succ_val_min (fuel : Nat) (st : SState) (d : Nat)
    (h10 : ¬AI_evaluate st.board = 10) (hm10 : ¬AI_evaluate st.board = -10)
    (hmv : Game_isMovesLeft st.board = true) :
    (minimaxF (fuel + 1) st d false).1 =
      ((legalMovesRM st.board).map
        (fun p => (minimaxF fuel ⟨setCell st.board p.1 p.2 1, 0, 0⟩ (d + 1) true).1)).foldl
        (fun a v => if v < a then v else a) 2147483647 := by
  rw [minimaxF_succ_min fuel st d h10 hm10 hmv]
  exact (legalFold_spec (fun s => minimaxF fuel s (d + 1) true) 1
    (fun v a => if v < a then v else a) (by norm_num)
    (fun s => (minimaxF_inv fuel s (d + 1) true).1)
    (fun s n m => ((minimaxF_inv fuel s (d + 1) true).2).trans
      ((minimaxF_inv fuel ⟨s.board, n, m⟩ (d + 1) true).2).symm)
    cellsRM 2147483647
    ⟨st.board, st.nodesSearched + 1, if d > st.maxDepthReached then d else st.maxDepthReached⟩).2

/-- The key correspondence: on every reachable, well-formed board with the
fuel AI_minimax is really run at, the search value is the depth-shifted
game-value table entry. -/
theorem minimaxF_eq_tbl (fuel : Nat) :
    ∀ (b d n m : Nat) (isMax : Bool), b < 19683 → emptyCountN b < fuel →
      d + emptyCountN b ≤ 9 → countsOK b isMax = true →
      (minimaxF fuel ⟨b, n, m⟩ d isMax).1 = shiftv (tblVal b isMax) d := by
  induction fuel with
  | zero => intro b d n m isMax _ hf _ _; exact absurd hf (Nat.not_lt_zero _)
  | succ fuel IH =>
    intro b d n m isMax hb hf hde hco
    rcases checkWin_cases b with hw | hw | hw | hw
    · have he : AI_evaluate b = 10 := by norm_num [AI_evaluate, hw]
      rw [minimaxF_succ_eval10 fuel ⟨b, n, m⟩ d isMax he]
      have ht : tblVal b isMax = 10 := by rw [tblVal, fp_win_O hb hw isMax]; norm_num
      show (10 : Int) - (d : Int) = shiftv (tblVal b isMax) d
      rw [ht, shiftv]
      norm_num
    · have he : AI_evaluate b = -10 := by norm_num [AI_evaluate, hw]
      rw [minimaxF_succ_evalm10 fuel ⟨b, n, m⟩ d isMax he]
      have ht : tblVal b isMax = -10 := by rw [tblVal, fp_win_X hb hw isMax]; norm_num
      show (-10 : Int) + (d : Int) = shiftv (tblVal b isMax) d
      rw [ht, shiftv]
      norm_num
    · have h10 : ¬AI_evaluate b = 10 := by norm_num [AI_evaluate, hw]
      have hm10 : ¬AI_evaluate b = -10 := by norm_num [AI_evaluate, hw]
      have hnm : Game_isMovesLeft b = false := checkWin_draw_noMoves hw
      rw [minimaxF_succ_draw fuel ⟨b, n, m⟩ d isMax h10 hm10 hnm]
      have ht : tblVal b isMax = 0 := by rw [tblVal, fp_draw hb hw isMax]; norm_num
      show (0 : Int) = shiftv (tblVal b isMax) d
      rw [ht, shiftv]
      norm_num
    · have h10 : ¬AI_evaluate b = 10 := by norm_num [AI_evaluate, hw]
      have hm10 : ¬AI_evaluate b = -10 := by norm_num [AI_evaluate, hw]
      have hmv : Game_isMovesLeft b = true := checkWin_ongoing_movesLeft hw
      have hne : legalMovesRM b ≠ [] := isMovesLeft_legal_ne_nil hmv
      have h1e : 1 ≤ emptyCountN b := List.length_pos.mpr hne
      cases isMax with
      | true =>
        have hchild : ∀ p ∈ legalMovesRM b,
            (minimaxF fuel ⟨setCell b p.1 p.2 2, 0, 0⟩ (d + 1) false).1 =
              shiftv (shiftOne (tblVal (setCell b p.1 p.2 2) false)) d ∧
            (shiftOne (tblVal (setCell b p.1 p.2 2) false) = 0 ∨
              (d : Int) < shiftOne (tblVal (setCell b p.1 p.2 2) false) ∨
              shiftOne (tblVal (setCell b p.1 p.2 2) false) < -(d : Int)) ∧
            (-10 ≤ shiftOne (tblVal (setCell b p.1 p.2 2) false) ∧
              shiftOne (tblVal (setCell b p.1 p.2 2) false) ≤ 10) ∧
            shiftOne (tblVal (setCell b p.1 p.2 2) false) =
              (shiftOneRaw (tblRaw (setCell b p.1 p.2 2) false) : Int) - 10 := by
          intro p hp
          simp only [legalMovesRM] at hp
          rcases List.mem_filter.mp hp with ⟨hpc, hp0b⟩
          have hp0 : getCell b p.1 p.2 = 0 := by simpa using hp0b
          have hb2 : setCell b p.1 p.2 2 < 19683 := setCell_lt hpc hb (by norm_num)
          have hec : emptyCountN (setCell b p.1 p.2 2) + 1 = emptyCountN b :=
            emptyCountN_setCell hpc hp0 (by norm_num) (by norm_num)
          have hco2 : countsOK (setCell b p.1 p.2 2) false = true := countsOK_child_O hpc hp0 hco
          have hinv : invRaw (tblRaw (setCell b p.1 p.2 2) false)
              (emptyCountN (setCell b p.1 p.2 2)) = true := tblRaw_inv hb2 hco2
          have hbd := childBand hinv (by omega : d + emptyCountN (setCell b p.1 p.2 2) ≤ 8)
          have hIH := IH (setCell b p.1 p.2 2) (d + 1) 0 0 false hb2 (by omega) (by omega) hco2
          refine ⟨?_, hbd.2.1, hbd.2.2, shiftOne_raw _ (invRaw_le20 hinv)⟩
          rw [hIH]
          exact shiftv_succ _ d hbd.1
        rw [minimaxF_succ_val_max fuel ⟨b, n, m⟩ d h10 hm10 hmv]
        show ((legalMovesRM b).map
            (fun p => (minimaxF fuel ⟨setCell b p.1 p.2 2, 0, 0⟩ (d + 1) false).1)).foldl
            (fun a v => if v > a then v else a) (-2147483647) = shiftv (tblVal b true) d
        rw [map_congr_mem _ _ _ (fun p hp => (hchild p hp).1)]
        rw [show (fun p : Nat × Nat => shiftv (shiftOne (tblVal (setCell b p.1 p.2 2) false)) d)
            = ((fun y => shiftv y d) ∘
              (fun p : Nat × Nat => shiftOne (tblVal (setCell b p.1 p.2 2) false))) from rfl]
        rw [← List.map_map]
        rw [shiftv_foldmax d (by omega) _
          (fun hc => hne (List.map_eq_nil_iff.mp hc))
          (by
            intro y hy
            rcases List.mem_map.mp hy with ⟨p, hp, rfl⟩
            exact (hchild p hp).2.1)
          (by
            intro y hy
            rcases List.mem_map.mp hy with ⟨p, hp, rfl⟩
            exact (hchild p hp).2.2.1)]
        rw [map_congr_mem _ _ _ (fun p hp => (hchild p hp).2.2.2)]
        rw [show (fun p : Nat × Nat =>
              (shiftOneRaw (tblRaw (setCell b p.1 p.2 2) false) : Int) - 10)
            = ((fun r : Nat => (r : Int) - 10) ∘
              (fun p : Nat × Nat => shiftOneRaw (tblRaw (setCell b p.1 p.2 2) false))) from rfl]
        rw [← List.map_map]
        rw [foldmax_raw_int _ (fun hc => hne (List.map_eq_nil_iff.mp hc))]
        have hfold : ((legalMovesRM b).map
            (fun p => shiftOneRaw (tblRaw (setCell b p.1 p.2 2) false))).foldl
            (fun a v => if v > a then v else a) 0 = tblRaw b true :=
          ((fp_ongoing hb hw true hco).1.trans (sideFold_max_eq b)).symm
        rw [hfold, tblVal]
        rfl
      | false =>
        have hchild : ∀ p ∈ legalMovesRM b,
            (minimaxF fuel ⟨setCell b p.1 p.2 1, 0, 0⟩ (d + 1) true).1 =
              shiftv (shiftOne (tblVal (setCell b p.1 p.2 1) true)) d ∧
            (shiftOne (tblVal (setCell b p.1 p.2 1) true) = 0 ∨
              (d : Int) < shiftOne (tblVal (setCell b p.1 p.2 1) true) ∨
              shiftOne (tblVal (setCell b p.1 p.2 1) true) < -(d : Int)) ∧
            (-10 ≤ shiftOne (tblVal (setCell b p.1 p.2 1) true) ∧
              shiftOne (tblVal (setCell b p.1 p.2 1) true) ≤ 10) ∧
            shiftOne (tblVal (setCell b p.1 p.2 1) true) =
              (shiftOneRaw (tblRaw (setCell b p.1 p.2 1) true) : Int) - 10 ∧
            shiftOneRaw (tblRaw (setCell b p.1 p.2 1) true) ≤ 20 := by
          intro p hp
          simp only [legalMovesRM] at hp
          rcases List.mem_filter.mp hp with ⟨hpc, hp0b⟩
          have hp0 : getCell b p.1 p.2 = 0 := by simpa using hp0b
          have hb2 : setCell b p.1 p.2 1 < 19683 := setCell_lt hpc hb (by norm_num)
          have hec : emptyCountN (setCell b p.1 p.2 1) + 1 = emptyCountN b :=
            emptyCountN_setCell hpc hp0 (by norm_num) (by norm_num)
          have hco2 : countsOK (setCell b p.1 p.2 1) true = true := countsOK_child_X hpc hp0 hco
          have hinv : invRaw (tblRaw (setCell b p.1 p.2 1) true)
              (emptyCountN (setCell b p.1 p.2 1)) = true := tblRaw_inv hb2 hco2
          have hbd := childBand hinv (by omega : d + emptyCountN (setCell b p.1 p.2 1) ≤ 8)
          have hIH := IH (setCell b p.1 p.2 1) (d + 1) 0 0 true hb2 (by omega) (by omega) hco2
          refine ⟨?_, hbd.2.1, hbd.2.2, shiftOne_raw _ (invRaw_le20 hinv),
            shiftOneRaw_le20 (invRaw_le20 hinv)⟩
          rw [hIH]
          exact shiftv_succ _ d hbd.1
        rw [minimaxF_succ_val_min fuel ⟨b, n, m⟩ d h10 hm10 hmv]
        show ((legalMovesRM b).map
            (fun p => (minimaxF fuel ⟨setCell b p.1 p.2 1, 0, 0⟩ (d + 1) true).1)).foldl
            (fun a v => if v < a then v else a) 2147483647 = shiftv (tblVal b false) d
        rw [map_congr_mem _ _ _ (fun p hp => (hchild p hp).1)]
        rw [show (fun p : Nat × Nat => shiftv (shiftOne (tblVal (setCell b p.1 p.2 1) true)) d)
            = ((fun y => shiftv y d) ∘
              (fun p : Nat × Nat => shiftOne (tblVal (setCell b p.1 p.2 1) true))) from rfl]
        rw [← List.map_map]
        rw [shiftv_foldmin d (by omega) _
          (fun hc => hne (List.map_eq_nil_iff.mp hc))
          (by
            intro y hy
            rcases List.mem_map.mp hy with ⟨p, hp, rfl⟩
            exact (hchild p hp).2.1)
          (by
            intro y hy
            rcases List.mem_map.mp hy with ⟨p, hp, rfl⟩
            exact (hchild p hp).2.2.1)]
        rw [map_congr_mem _ _ _ (fun p hp => (hchild p hp).2.2.2.1)]
        rw [show (fun p : Nat × Nat =>
              (shiftOneRaw (tblRaw (setCell b p.1 p.2 1) true) : Int) - 10)
            = ((fun r : Nat => (r : Int) - 10) ∘
              (fun p : Nat × Nat => shiftOneRaw (tblRaw (setCell b p.1 p.2 1) true))) from rfl]
        rw [← List.map_map]
        rw [foldmin_raw_int _ (fun hc => hne (List.map_eq_nil_iff.mp hc))
          (by
            intro r hr
            rcases List.mem_map.mp hr with ⟨p, hp, rfl⟩
            exact (hchild p hp).2.2.2.2)]
        have hfold : ((legalMovesRM b).map
            (fun p => shiftOneRaw (tblRaw (setCell b p.1 p.2 1) true))).foldl
            (fun a v => if v < a then v else a) 20 = tblRaw b false :=
          ((fp_ongoing hb hw false hco).1.trans (sideFold_min_eq b)).symm
        rw [hfold, tblVal]
        rfl

/-! ## The best-move scan: candidate collection and first-argmax tracking -/

theorem foldl_maxStep_of_le {α : Type} [LinearOrder α] (l : List α) (a : α)
    (h : ∀ v ∈ l, v ≤ a) : l.foldl (fun a v => if v > a then v else a) a = a := by
  induction l generalizing a with
  | nil => rfl
  | cons x l IH =>
    simp only [List.foldl_cons]
    rw [if_neg (not_lt.mpr (h x (List.mem_cons_self _ _)))]
    exact IH a (fun v hv => h v (List.mem_cons_of_mem _ hv))

theorem trackFold_cons (c : Candidate) (cl : List Candidate) (a : Int) (mv : Move) :
    trackFold (c :: cl) (a, mv) =
      trackFold cl
        (if c.score > a then (c.score, (⟨(c.r : Int), (c.c : Int)⟩ : Move)) else (a, mv)) := rfl

theorem trackFold_fst : ∀ (cl : List Candidate) (a : Int) (mv : Move),
    (trackFold cl (a, mv)).1 =
      (cl.map (fun c => c.score)).foldl (fun x v => if v > x then v else x) a := by
  intro cl
  induction cl with
  | nil => intro a mv; rfl
  | cons c cl IH =>
    intro a mv
    rw [trackFold_cons]
    simp only [List.map_cons, List.foldl_cons]
    by_cases h : c.score > a
    · rw [if_pos h, if_pos h, IH]
    · rw [if_neg h, if_neg h, IH]

theorem trackFold_of_le : ∀ (cl : List Candidate) (a : Int) (mv : Move),
    (∀ c ∈ cl, c.score ≤ a) → trackFold cl (a, mv) = (a, mv) := by
  intro cl
  induction cl with
  | nil => intro a mv _; rfl
  | cons c cl IH =>
    intro a mv h
    rw [trackFold_cons, if_neg (not_lt.mpr (h c (List.mem_cons_self _ _)))]
    exact IH a mv (fun x hx => h x (List.mem_cons_of_mem _ hx))

/-- The strict-`>` tracking fold lands on the first candidate whose score
equals the overall maximum, as soon as any candidate beats the seed. -/
theorem trackFold_find_eq : ∀ (cl : List Candidate) (a : Int) (mv : Move) (M : Int),
    (cl.map (fun c => c.score)).foldl (fun x v => if v > x then v else x) a = M →
    (∃ c ∈ cl, a < c.score) →
    ∃ c₀, cl.find? (fun c => c.score == M) = some c₀ ∧
      trackFold cl (a, mv) = (c₀.score, ⟨(c₀.r : Int), (c₀.c : Int)⟩) := by
  intro cl
  induction cl with
  | nil => intro a mv M _ hex; rcases hex with ⟨c, hc, _⟩; cases hc
  | cons c cl IH =>
    intro a mv M hM hex
    simp only [List.map_cons, List.foldl_cons] at hM
    rw [trackFold_cons]
    by_cases hgt : c.score > a
    · rw [if_pos hgt]
      rw [if_pos hgt] at hM
      by_cases hall : ∀ x ∈ cl, x.score ≤ c.score
      · have hM2 : M = c.score := by
          rw [← hM]
          exact foldl_maxStep_of_le _ _ (by
            intro v hv
            rcases List.mem_map.mp hv with ⟨x, hx, rfl⟩
            exact hall x hx)
        have hpred : (c.score == M) = true := by simp [hM2]
        refine ⟨c, List.find?_cons_of_pos _ hpred, ?_⟩
        rw [trackFold_of_le cl c.score _ hall]
      · push_neg at hall
        rcases hall with ⟨x, hx, hxgt⟩
        rcases IH c.score ⟨(c.r : Int), (c.c : Int)⟩ M hM ⟨x, hx, hxgt⟩ with ⟨c₀, hfind, htf⟩
        have hxM : x.score ≤ M := by
          rw [← hM]
          exact foldl_maxStep_ge_mem _ _ _ (List.mem_map_of_mem _ hx)
        have hpred : ¬((c.score == M) = true) := by
          simp only [beq_iff_eq]
          omega
        exact ⟨c₀,
          (@List.find?_cons_of_neg Candidate (fun c => c.score == M) c cl hpred).trans hfind,
          htf⟩
    · rw [if_neg hgt]
      rw [if_neg hgt] at hM
      have hex2 : ∃ x ∈ cl, a < x.score := by
        rcases hex with ⟨x, hxmem, hxa⟩
        rcases List.mem_cons.mp hxmem with rfl | hxcl
        · exact absurd hxa hgt
        · exact ⟨x, hxcl, hxa⟩
      rcases IH a mv M hM hex2 with ⟨c₀, hfind, htf⟩
      rcases hex2 with ⟨x, hx, hxa⟩
      have hxM : x.score ≤ M := by
        rw [← hM]
        exact foldl_maxStep_ge_mem _ _ _ (List.mem_map_of_mem _ hx)
      have hpred : ¬((c.score == M) = true) := by
        simp only [beq_iff_eq]
        omega
      exact ⟨c₀,
        (@List.find?_cons_of_neg Candidate (fun c => c.score == M) c cl hpred).trans hfind,
        htf⟩

theorem bestScan_nil (rec acc) : bestScan rec [] acc = acc := rfl

theorem bestScan_cons (rec p cs acc) :
    bestScan rec (p :: cs) acc =
      bestScan rec cs
        (if getCell acc.2.2.2.board p.1 p.2 = 0 then
          let s1 : SState := ⟨Game_makeMove acc.2.2.2.board p.1 p.2 2, acc.2.2.2.nodesSearched, acc.2.2.2.maxDepthReached⟩
          let vs := rec s1
          let s3 : SState := ⟨Game_makeMove vs.2.board p.1 p.2 0, vs.2.nodesSearched, vs.2.maxDepthReached⟩
          if vs.1 > acc.1 then
            (vs.1, ⟨(p.1 : Int), (p.2 : Int)⟩, acc.2.2.1 ++ [⟨p.1, p.2, vs.1⟩], s3)
          else (acc.1, acc.2.1, acc.2.2.1 ++ [⟨p.1, p.2, vs.1⟩], s3)
        else acc) := rfl

/-- Characterization of AI_findBestMove_impl's scan loop: the board is
restored, the candidate list collects every legal move with its score in
scan order, and best value and best move are the tracking fold of that
list. -/
theorem bestScan_spec (rec : SState → Int × SState)
    (hb : ∀ s, (rec s).2.board = s.board)
    (hv : ∀ s n m, (rec s).1 = (rec ⟨s.board, n, m⟩).1) :
    ∀ (cs : List (Nat × Nat)) (a : Int) (mv : Move) (cl : List Candidate) (s : SState),
      (bestScan rec cs (a, mv, cl, s)).2.2.2.board = s.board ∧
      (bestScan rec cs (a, mv, cl, s)).2.2.1 =
        cl ++ (cs.filter (fun p => getCell s.board p.1 p.2 == 0)).map
          (fun p => ⟨p.1, p.2, (rec ⟨setCell s.board p.1 p.2 2, 0, 0⟩).1⟩) ∧
      ((bestScan rec cs (a, mv, cl, s)).1, (bestScan rec cs (a, mv, cl, s)).2.1) =
        trackFold ((cs.filter (fun p => getCell s.board p.1 p.2 == 0)).map
          (fun p => ⟨p.1, p.2, (rec ⟨setCell s.board p.1 p.2 2, 0, 0⟩).1⟩)) (a, mv) := by
  intro cs
  induction cs with
  | nil =>
    intro a mv cl s
    refine ⟨rfl, ?_, rfl⟩
    show cl = cl ++ ([] : List Candidate)
    exact (List.append_nil cl).symm
  | cons p cs IH =>
    intro a mv cl s
    rw [bestScan_cons]
    by_cases hleg : getCell s.board p.1 p.2 = 0
    · simp only [hleg, eq_self_iff_true, if_true]
      set vs := rec ⟨Game_makeMove s.board p.1 p.2 2, s.nodesSearched, s.maxDepthReached⟩
        with hvsdef
      have hvsb : vs.2.board = setCell s.board p.1 p.2 2 := hb _
      have hval : vs.1 = (rec ⟨setCell s.board p.1 p.2 2, 0, 0⟩).1 := hv _ 0 0
      have hs3 : Game_makeMove vs.2.board p.1 p.2 0 = s.board := by
        show setCell vs.2.board p.1 p.2 0 = s.board
        rw [hvsb]; exact setCell_clear _ _ _ _ (by norm_num) hleg
      rw [hs3]
      by_cases hgt : vs.1 > a
      · rw [if_pos hgt]
        have hIH := IH vs.1 ⟨(p.1 : Int), (p.2 : Int)⟩ (cl ++ [⟨p.1, p.2, vs.1⟩])
          ⟨s.board, vs.2.nodesSearched, vs.2.maxDepthReached⟩
        refine ⟨hIH.1, ?_, ?_⟩
        · rw [hIH.2.1]
          simp only [List.filter_cons, hleg, beq_self_eq_true, eq_self_iff_true, if_true,
            List.map_cons, List.append_assoc, List.singleton_append]
          rw [hval]
        · rw [hIH.2.2]
          simp only [List.filter_cons, hleg, beq_self_eq_true, eq_self_iff_true, if_true,
            List.map_cons]
          rw [trackFold_cons, ← hval, if_pos hgt]
      · rw [if_neg hgt]
        have hIH := IH a mv (cl ++ [⟨p.1, p.2, vs.1⟩])
          ⟨s.board, vs.2.nodesSearched, vs.2.maxDepthReached⟩
        refine ⟨hIH.1, ?_, ?_⟩
        · rw [hIH.2.1]
          simp only [List.filter_cons, hleg, beq_self_eq_true, eq_self_iff_true, if_true,
            List.map_cons, List.append_assoc, List.singleton_append]
          rw [hval]
        · rw [hIH.2.2]
          simp only [List.filter_cons, hleg, beq_self_eq_true, eq_self_iff_true, if_true,
            List.map_cons]
          rw [trackFold_cons, ← hval, if_neg hgt]
    · simp only [hleg, if_false]
      have hIH := IH a mv cl s
      refine ⟨hIH.1, ?_, ?_⟩
      · rw [hIH.2.1]
        simp only [List.filter_cons]
        have hf : (getCell s.board p.1 p.2 == 0) = false := by simp [hleg]
        rw [hf]
        simp
      · rw [hIH.2.2]
        simp only [List.filter_cons]
        have hf : (getCell s.board p.1 p.2 == 0) = false := by simp [hleg]
        rw [hf]
        simp

theorem explainScan_cons (rec maxOut p cs acc) :
    explainScan rec maxOut (p :: cs) acc =
      explainScan rec maxOut cs
        (if getCell acc.2.2.board p.1 p.2 = 0 then
          let s1 : SState := ⟨Game_makeMove acc.2.2.board p.1 p.2 2, acc.2.2.nodesSearched, acc.2.2.maxDepthReached⟩
          let vs := rec s1
          let s3 : SState := ⟨Game_makeMove vs.2.board p.1 p.2 0, vs.2.nodesSearched, vs.2.maxDepthReached⟩
          (acc.1 + 1, if (acc.1 : Int) < maxOut then acc.2.1 ++ [⟨p.1, p.2, vs.1⟩] else acc.2.1, s3)
        else acc) := rfl

/-- AI_explain's enumeration loop restores the board. -/
theorem explainScan_board (rec : SState → Int × SState)
    (hb : ∀ s, (rec s).2.board = s.board) (maxOut : Int) :
    ∀ (cs : List (Nat × Nat)) (k : Nat) (cl : List AICandidate) (s : SState),
      (explainScan rec maxOut cs (k, cl, s)).2.2.board = s.board := by
  intro cs
  induction cs with
  | nil => intro k cl s; rfl
  | cons p cs IH =>
    intro k cl s
    rw [explainScan_cons]
    by_cases hleg : getCell s.board p.1 p.2 = 0
    · simp only [hleg, eq_self_iff_true, if_true]
      set vs := rec ⟨Game_makeMove s.board p.1 p.2 2, s.nodesSearched, s.maxDepthReached⟩
        with hvsdef
      have hvsb : vs.2.board = setCell s.board p.1 p.2 2 := hb _
      have hs3 : Game_makeMove vs.2.board p.1 p.2 0 = s.board := by
        show setCell vs.2.board p.1 p.2 0 = s.board
        rw [hvsb]; exact setCell_clear _ _ _ _ (by norm_num) hleg
      rw [hs3]
      exact IH _ _ ⟨s.board, vs.2.nodesSearched, vs.2.maxDepthReached⟩
    · simp only [hleg, if_false]
      exact IH k cl s

/-! ## The top-level move scores through the game-value table -/

/-- On a reachable well-formed board, the score every top-level loop gives a
legal move is its child's table entry. -/
theorem AI_moveScore_eq_tbl {b : Nat} (hb : b < 19683) {p : Nat × Nat} (hp : p ∈ cellsRM)
    (h0 : getCell b p.1 p.2 = 0) (hco : countsOK b true = true) :
    AI_moveScore b p = tblVal (setCell b p.1 p.2 2) false := by
  have hb2 : setCell b p.1 p.2 2 < 19683 := setCell_lt hp hb (by norm_num)
  have hco2 := countsOK_child_O hp h0 hco
  have he := emptyCountN_le (setCell b p.1 p.2 2)
  have h := minimaxF_eq_tbl 10 (setCell b p.1 p.2 2) 0 0 0 false hb2 (by omega) (by omega) hco2
  show (minimaxF 10 ⟨setCell b p.1 p.2 2, 0, 0⟩ 0 false).1 = _
  rw [h, shiftv_zero]

theorem candidatesOf_eq_T {b : Nat} (hb : b < 19683) (hco : countsOK b true = true) :
    candidatesOf b = candidatesT b := by
  rw [candidatesOf, candidatesT]
  apply map_congr_mem
  intro p hp
  simp only [legalMovesRM] at hp
  rcases List.mem_filter.mp hp with ⟨hpc, hp0b⟩
  have hp0 : getCell b p.1 p.2 = 0 := by simpa using hp0b
  rw [AI_moveScore_eq_tbl hb hpc hp0 hco]

theorem bestScore_fold (b : Nat) :
    ((candidatesOf b).map (fun c => c.score)).foldl (fun x v => if v > x then v else x)
      (-2147483647) = bestScoreOf b := by
  rw [candidatesOf, List.map_map, bestScoreOf]
  rfl

theorem bestScoreOf_eq_T {b : Nat} (hb : b < 19683) (hco : countsOK b true = true) :
    bestScoreOf b = bestScoreT b := by
  rw [← bestScore_fold, bestScoreT, candidatesOf_eq_T hb hco]

theorem candScore_bounds {b : Nat} : ∀ c ∈ candidatesOf b, -10 ≤ c.score ∧ c.score ≤ 10 := by
  intro c hc
  simp only [candidatesOf] at hc
  rcases List.mem_map.mp hc with ⟨p, hp, rfl⟩
  exact minimaxF_bounds 10 ⟨Game_makeMove b p.1 p.2 2, 0, 0⟩ 0 false (by norm_num)

theorem candidatesOf_ne_nil {b : Nat} (hw : Game_checkWin b = 2) : candidatesOf b ≠ [] := by
  have hne := isMovesLeft_legal_ne_nil (checkWin_ongoing_movesLeft hw)
  rw [candidatesOf]
  intro hc
  exact hne (List.map_eq_nil_iff.mp hc)

/-- The running best the scan computes is the maximum of the candidate
scores: every candidate is below it and it is attained. -/
theorem bestScore_is_max {b : Nat} (hw : Game_checkWin b = 2) :
    (∀ c ∈ candidatesOf b, c.score ≤ bestScoreOf b) ∧
    bestScoreOf b ∈ (candidatesOf b).map (fun c => c.score) := by
  have hcne := candidatesOf_ne_nil hw
  constructor
  · intro c hc
    have h := foldl_maxStep_ge_mem ((candidatesOf b).map (fun c => c.score)) (-2147483647 : Int)
      c.score (List.mem_map_of_mem _ hc)
    rwa [bestScore_fold] at h
  · rcases foldl_maxStep_mem ((candidatesOf b).map (fun c => c.score)) (-2147483647 : Int)
      with h | h
    · exfalso
      rcases List.exists_mem_of_ne_nil _ hcne with ⟨c, hc⟩
      have h1 := foldl_maxStep_ge_mem ((candidatesOf b).map (fun c => c.score))
        (-2147483647 : Int) c.score (List.mem_map_of_mem _ hc)
      have h2 := (candScore_bounds c hc).1
      rw [h] at h1
      omega
    · rwa [bestScore_fold] at h

/-! ## AI_findBestMove_impl, AI_getPrediction, AI_explain at the top level -/

theorem findBestMove_scan (b : Nat) :
    (bestScan (fun s => AI_minimax s 0 false) cellsRM
        (-2147483647, ⟨-1, -1⟩, [], ⟨b, 0, 0⟩)).2.2.2.board = b ∧
    (bestScan (fun s => AI_minimax s 0 false) cellsRM
        (-2147483647, ⟨-1, -1⟩, [], ⟨b, 0, 0⟩)).2.2.1 = candidatesOf b ∧
    ((bestScan (fun s => AI_minimax s 0 false) cellsRM
        (-2147483647, ⟨-1, -1⟩, [], ⟨b, 0, 0⟩)).1,
      (bestScan (fun s => AI_minimax s 0 false) cellsRM
        (-2147483647, ⟨-1, -1⟩, [], ⟨b, 0, 0⟩)).2.1) =
      trackFold (candidatesOf b) (-2147483647, ⟨-1, -1⟩) := by
  have hbrec : ∀ s, ((fun s => AI_minimax s 0 false) s).2.board = s.board :=
    fun s => (minimaxF_inv 10 s 0 false).1
  have hvrec : ∀ s n m, ((fun s => AI_minimax s 0 false) s).1 =
      ((fun s => AI_minimax s 0 false) ⟨s.board, n, m⟩).1 :=
    fun s n m => ((minimaxF_inv 10 s 0 false).2).trans
      ((minimaxF_inv 10 ⟨s.board, n, m⟩ 0 false).2).symm
  have S := bestScan_spec (fun s => AI_minimax s 0 false) hbrec hvrec cellsRM
    (-2147483647) ⟨-1, -1⟩ [] ⟨b, 0, 0⟩
  refine ⟨S.1, ?_, ?_⟩
  · rw [S.2.1]
    show [] ++ candidatesOf b = candidatesOf b
    exact List.nil_append _
  · rw [S.2.2]
    rfl

theorem findBestMove_scan_val (b : Nat) :
    (bestScan (fun s => AI_minimax s 0 false) cellsRM
      (-2147483647, ⟨-1, -1⟩, [], ⟨b, 0, 0⟩)).1 = bestScoreOf b := by
  have h := congrArg Prod.fst (findBestMove_scan b).2.2
  rw [trackFold_fst] at h
  exact h.trans (bestScore_fold b)

/-- AI_findBestMove_impl overwrites the incoming instrumentation counters:
its whole result only depends on the board. -/
theorem findBestMove_reset (ai : AI) (st : SState) (randVal : Nat) :
    AI_findBestMove_impl ai st randVal = AI_findBestMove_impl ai ⟨st.board, 0, 0⟩ randVal := rfl

/-- AI_explain likewise resets the counters before scanning. -/
theorem explain_reset (ai : AI) (st : SState) (maxOut : Int) :
    AI_explain ai st maxOut = AI_explain ai ⟨st.board, 0, 0⟩ maxOut := rfl

/-- At difficulty 2 the random draw is never consumed. -/
theorem optimal_rand_pure (ai : AI) (hai : ai.difficulty = 2) (st : SState) (r1 r2 : Nat) :
    AI_findBestMove_impl ai st r1 = AI_findBestMove_impl ai st r2 := by
  simp only [AI_findBestMove_impl, hai]
  norm_num

/-- Optimal-tier selection: the returned move is the first candidate in
row-major order whose score is the running maximum, and the board comes back
unchanged. -/
theorem findBestMove_optimal (ai : AI) (hai : ai.difficulty = 2) {b : Nat}
    (hw : Game_checkWin b = 2) (n m randVal : Nat) :
    ∃ c₀, (candidatesOf b).find? (fun c => c.score == bestScoreOf b) = some c₀ ∧
      (AI_findBestMove_impl ai ⟨b, n, m⟩ randVal).1 = ⟨(c₀.r : Int), (c₀.c : Int)⟩ ∧
      (AI_findBestMove_impl ai ⟨b, n, m⟩ randVal).2.board = b := by
  have hcne := candidatesOf_ne_nil hw
  have S := findBestMove_scan b
  have hlen : ¬((candidatesOf b).length = 0) :=
    fun h => hcne (List.length_eq_zero.mp h)
  have hex : ∃ c ∈ candidatesOf b, (-2147483647 : Int) < c.score := by
    rcases List.exists_mem_of_ne_nil _ hcne with ⟨c, hc⟩
    have h2 := (candScore_bounds c hc).1
    exact ⟨c, hc, by omega⟩
  rcases trackFold_find_eq (candidatesOf b) (-2147483647) ⟨-1, -1⟩ (bestScoreOf b)
    (bestScore_fold b) hex with ⟨c₀, hfind, htf⟩
  have hmv : (bestScan (fun s => AI_minimax s 0 false) cellsRM
      (-2147483647, ⟨-1, -1⟩, [], ⟨b, 0, 0⟩)).2.1 = ⟨(c₀.r : Int), (c₀.c : Int)⟩ := by
    have h := congrArg Prod.snd S.2.2
    rw [htf] at h
    exact h
  refine ⟨c₀, hfind, ?_, ?_⟩
  · show (AI_findBestMove_impl ai ⟨b, n, m⟩ randVal).1 = _
    simp only [AI_findBestMove_impl]
    rw [S.2.1, if_neg hlen, if_pos hai]
    exact hmv
  · simp only [AI_findBestMove_impl]
    rw [S.2.1, if_neg hlen, if_pos hai]
    exact S.1

/-- AI_getPrediction's value is the sign classification of the maximum
top-level score, and it restores the board. -/
theorem getPrediction_spec (ai : AI) (b n m : Nat) :
    (AI_getPrediction ai ⟨b, n, m⟩).1 =
      (if bestScoreOf b > 0 then -1 else if bestScoreOf b < 0 then 1 else 0) ∧
    (AI_getPrediction ai ⟨b, n, m⟩).2.board = b := by
  have hbrec : ∀ s, ((fun s => AI_minimax s 0 false) s).2.board = s.board :=
    fun s => (minimaxF_inv 10 s 0 false).1
  have hvrec : ∀ s n m, ((fun s => AI_minimax s 0 false) s).1 =
      ((fun s => AI_minimax s 0 false) ⟨s.board, n, m⟩).1 :=
    fun s n m => ((minimaxF_inv 10 s 0 false).2).trans
      ((minimaxF_inv 10 ⟨s.board, n, m⟩ 0 false).2).symm
  have S := legalFold_spec (fun s => AI_minimax s 0 false) 2
    (fun v a => if v > a then v else a) (by norm_num) hbrec hvrec cellsRM
    (-2147483647) ⟨b, n, m⟩
  constructor
  · show (if (legalFold (fun s => AI_minimax s 0 false) 2
        (fun v a => if v > a then v else a) cellsRM (-2147483647, ⟨b, n, m⟩)).1 > 0
        then (-1 : Int) else if (legalFold (fun s => AI_minimax s 0 false) 2
        (fun v a => if v > a then v else a) cellsRM (-2147483647, ⟨b, n, m⟩)).1 < 0
        then 1 else 0) = _
    rw [S.2]
    rfl
  · exact S.1

/-! ## The AI-vs-AI playout -/

theorem AIvsAI_playout_succ (fuel turn : Nat) (st : SState) :
    AIvsAI_playout (fuel + 1) turn st =
      if Game_checkWin st.board = 2 then
        AIvsAI_playout fuel (1 - turn)
          ⟨Game_makeMove (AI_findBestMove_impl AI_init st 0).2.board
              (AI_findBestMove_impl AI_init st 0).1.row.toNat
              (AI_findBestMove_impl AI_init st 0).1.col.toNat
              (if turn = 0 then 1 else 2),
            (AI_findBestMove_impl AI_init st 0).2.nodesSearched,
            (AI_findBestMove_impl AI_init st 0).2.maxDepthReached⟩
      else st := rfl

/-- The board a playout reaches does not depend on the incoming counters. -/
theorem playout_board_stats : ∀ (fuel turn : Nat) (st : SState),
    (AIvsAI_playout fuel turn st).board = (AIvsAI_playout fuel turn ⟨st.board, 0, 0⟩).board := by
  intro fuel
  induction fuel with
  | zero => intro turn st; rfl
  | succ fuel _ =>
    intro turn st
    rw [AIvsAI_playout_succ, AIvsAI_playout_succ]
    by_cases hw : Game_checkWin st.board = 2
    · rw [if_pos hw, if_pos hw]
      rw [findBestMove_reset AI_init st 0]
    · rw [if_neg hw, if_neg hw]

/-- One move of the optimal-vs-optimal playout: the mover places its own
mark on the first argmax candidate of the table-scored list. -/
theorem playout_step (b : Nat) (c₀ : Candidate) (hb : b < 19683)
    (hco : countsOK b true = true) (hw : Game_checkWin b = 2)
    (hfind : (candidatesT b).find? (fun c => c.score == bestScoreT b) = some c₀)
    (fuel turn n m : Nat) :
    (AIvsAI_playout (fuel + 1) turn ⟨b, n, m⟩).board =
      (AIvsAI_playout fuel (1 - turn)
        ⟨setCell b c₀.r c₀.c (if turn = 0 then 1 else 2), 0, 0⟩).board := by
  rcases findBestMove_optimal AI_init rfl hw n m 0 with ⟨c₁, hfind1, hmove, hboard⟩
  have hfind2 : (candidatesOf b).find? (fun c => c.score == bestScoreOf b) = some c₀ := by
    rw [candidatesOf_eq_T hb hco, bestScoreOf_eq_T hb hco]
    exact hfind
  have hc01 : c₁ = c₀ := by
    have h := hfind1.symm.trans hfind2
    exact Option.some.inj h
  rw [AIvsAI_playout_succ, if_pos hw, hboard, hmove, hc01]
  rw [playout_board_stats]
  rfl

/-! ## The claims -/

/-- C1: AI_minimax returns `score - depth` (`10 - depth`) when the maximizer
(O) has a completed line, `score + depth` (`-10 + depth`) when the opponent
(X) has one, and `0` on a full drawn board; a board one move from a forced
maximizer win searched from depth 0 scores `9`, one move from a forced
minimizer win scores `-9`. -/
theorem C1_depth_bias (b n m d : Nat) (x : Bool) :
    (Game_checkWin b = -1 → (AI_minimax ⟨b, n, m⟩ d x).1 = 10 - (d : Int)) ∧
    (Game_checkWin b = 1 → (AI_minimax ⟨b, n, m⟩ d x).1 = -10 + (d : Int)) ∧
    (Game_checkWin b = 0 → (AI_minimax ⟨b, n, m⟩ d x).1 = 0) ∧
    (AI_minimax ⟨116, 0, 0⟩ 0 true).1 = 9 ∧
    (AI_minimax ⟨220, 0, 0⟩ 0 false).1 = -9 := by
  refine ⟨?_, ?_, ?_, ?_, ?_⟩
  · intro hw
    have he : AI_evaluate b = 10 := by norm_num [AI_evaluate, hw]
    show (minimaxF (9 + 1) ⟨b, n, m⟩ d x).1 = _
    rw [minimaxF_succ_eval10 9 ⟨b, n, m⟩ d x he]
  · intro hw
    have he : AI_evaluate b = -10 := by norm_num [AI_evaluate, hw]
    show (minimaxF (9 + 1) ⟨b, n, m⟩ d x).1 = _
    rw [minimaxF_succ_evalm10 9 ⟨b, n, m⟩ d x he]
  · intro hw
    have h10 : ¬AI_evaluate b = 10 := by norm_num [AI_evaluate, hw]
    have hm10 : ¬AI_evaluate b = -10 := by norm_num [AI_evaluate, hw]
    have hnm : Game_isMovesLeft b = false := checkWin_draw_noMoves hw
    show (minimaxF (9 + 1) ⟨b, n, m⟩ d x).1 = 0
    rw [minimaxF_succ_draw 9 ⟨b, n, m⟩ d x h10 hm10 hnm]
  · have h := minimaxF_eq_tbl 10 116 0 0 0 true (by norm_num) (by decide) (by decide) (by decide)
    show (minimaxF 10 ⟨116, 0, 0⟩ 0 true).1 = 9
    rw [h, shiftv_zero]
    decide!
  · have h := minimaxF_eq_tbl 10 220 0 0 0 false (by norm_num) (by decide) (by decide) (by decide)
    show (minimaxF 10 ⟨220, 0, 0⟩ 0 false).1 = -9
    rw [h, shiftv_zero]
    decide!

/-- C2: at difficulty Optimal (2), AI_findBestMove_impl returns the first
legal move in row-major order whose top-level score equals the maximum over
all legal moves (ties first-seen, strict-`>` updates), the running best is
that maximum, the board is restored, and the result is a pure function of
the board: independent of the incoming counters and of the random draw. -/
theorem C2_optimal_first_argmax (ai : AI) (b n1 m1 n2 m2 r1 r2 : Nat)
    (hai : ai.difficulty = 2) (hw : Game_checkWin b = 2) :
    ∃ c₀, (candidatesOf b).find? (fun c => c.score == bestScoreOf b) = some c₀ ∧
      (AI_findBestMove_impl ai ⟨b, n1, m1⟩ r1).1 = ⟨(c₀.r : Int), (c₀.c : Int)⟩ ∧
      (∀ c ∈ candidatesOf b, c.score ≤ bestScoreOf b) ∧
      bestScoreOf b ∈ (candidatesOf b).map (fun c => c.score) ∧
      (AI_findBestMove_impl ai ⟨b, n1, m1⟩ r1).2.board = b ∧
      AI_findBestMove_impl ai ⟨b, n1, m1⟩ r1 = AI_findBestMove_impl ai ⟨b, n2, m2⟩ r2 := by
  rcases findBestMove_optimal ai hai hw n1 m1 r1 with ⟨c₀, hfind, hmove, hboard⟩
  refine ⟨c₀, hfind, hmove, (bestScore_is_max hw).1, (bestScore_is_max hw).2, hboard, ?_⟩
  exact (findBestMove_reset ai ⟨b, n1, m1⟩ r1).trans
    ((optimal_rand_pure ai hai ⟨b, 0, 0⟩ r1 r2).trans
      (findBestMove_reset ai ⟨b, n2, m2⟩ r2).symm)

theorem C2_witness :
    ∃ c₀, (candidatesOf 5323).find? (fun c => c.score == bestScoreOf 5323) = some c₀ ∧
      (AI_findBestMove_impl AI_init ⟨5323, 0, 0⟩ 0).1 = ⟨(c₀.r : Int), (c₀.c : Int)⟩ ∧
      (∀ c ∈ candidatesOf 5323, c.score ≤ bestScoreOf 5323) ∧
      bestScoreOf 5323 ∈ (candidatesOf 5323).map (fun c => c.score) ∧
      (AI_findBestMove_impl AI_init ⟨5323, 0, 0⟩ 0).2.board = 5323 ∧
      AI_findBestMove_impl AI_init ⟨5323, 0, 0⟩ 0 =
        AI_findBestMove_impl AI_init ⟨5323, 0, 0⟩ 0 :=
  C2_optimal_first_argmax AI_init 5323 0 0 0 0 0 0 rfl (by decide)

/-- C3: Game_checkWin checks the three rows, then the three columns, then
the two diagonals, first match winning, reporting `lineVal` of the mark
found (`1` for X, `-1` for O); with no complete line it returns `0` (Draw)
exactly when no empty cell remains and `2` (Ongoing) otherwise; the empty
board is Ongoing. -/
theorem C3_checkWin_classification (b : Nat) :
    (rowWin b 0 = true → Game_checkWin b = lineVal (getCell b 0 0)) ∧
    (rowWin b 0 = false → rowWin b 1 = true → Game_checkWin b = lineVal (getCell b 1 0)) ∧
    (rowWin b 0 = false → rowWin b 1 = false → rowWin b 2 = true →
      Game_checkWin b = lineVal (getCell b 2 0)) ∧
    (rowWin b 0 = false → rowWin b 1 = false → rowWin b 2 = false →
      colWin b 0 = true → Game_checkWin b = lineVal (getCell b 0 0)) ∧
    (rowWin b 0 = false → rowWin b 1 = false → rowWin b 2 = false →
      colWin b 0 = false → colWin b 1 = true → Game_checkWin b = lineVal (getCell b 0 1)) ∧
    (rowWin b 0 = false → rowWin b 1 = false → rowWin b 2 = false →
      colWin b 0 = false → colWin b 1 = false → colWin b 2 = true →
      Game_checkWin b = lineVal (getCell b 0 2)) ∧
    (rowWin b 0 = false → rowWin b 1 = false → rowWin b 2 = false →
      colWin b 0 = false → colWin b 1 = false → colWin b 2 = false →
      diagWin b = true → Game_checkWin b = lineVal (getCell b 0 0)) ∧
    (rowWin b 0 = false → rowWin b 1 = false → rowWin b 2 = false →
      colWin b 0 = false → colWin b 1 = false → colWin b 2 = false →
      diagWin b = false → antiDiagWin b = true →
      Game_checkWin b = lineVal (getCell b 0 2)) ∧
    (rowWin b 0 = false → rowWin b 1 = false → rowWin b 2 = false →
      colWin b 0 = false → colWin b 1 = false → colWin b 2 = false →
      diagWin b = false → antiDiagWin b = false →
      (Game_checkWin b = 0 ↔ Game_isMovesLeft b = false) ∧
      (Game_checkWin b = 2 ↔ Game_isMovesLeft b = true)) ∧
    lineVal 1 = 1 ∧ lineVal 2 = -1 ∧ Game_checkWin initialBoard = 2 := by
  refine ⟨?_, ?_, ?_, ?_, ?_, ?_, ?_, ?_, ?_, by decide, by decide, by decide⟩
  · intro h1
    simp only [Game_checkWin, h1, eq_self_iff_true, if_true]
  · intro h1 h2
    simp only [Game_checkWin, h1, h2, eq_self_iff_true, if_true, Bool.false_eq_true, if_false]
  · intro h1 h2 h3
    simp only [Game_checkWin, h1, h2, h3, eq_self_iff_true, if_true, Bool.false_eq_true,
      if_false]
  · intro h1 h2 h3 h4
    simp only [Game_checkWin, h1, h2, h3, h4, eq_self_iff_true, if_true, Bool.false_eq_true,
      if_false]
  · intro h1 h2 h3 h4 h5
    simp only [Game_checkWin, h1, h2, h3, h4, h5, eq_self_iff_true, if_true,
      Bool.false_eq_true, if_false]
  · intro h1 h2 h3 h4 h5 h6
    simp only [Game_checkWin, h1, h2, h3, h4, h5, h6, eq_self_iff_true, if_true,
      Bool.false_eq_true, if_false]
  · intro h1 h2 h3 h4 h5 h6 h7
    simp only [Game_checkWin, h1, h2, h3, h4, h5, h6, h7, eq_self_iff_true, if_true,
      Bool.false_eq_true, if_false]
  · intro h1 h2 h3 h4 h5 h6 h7 h8
    simp only [Game_checkWin, h1, h2, h3, h4, h5, h6, h7, h8, eq_self_iff_true, if_true,
      Bool.false_eq_true, if_false]
  · intro h1 h2 h3 h4 h5 h6 h7 h8
    have hcw : Game_checkWin b = (if Game_isMovesLeft b then 2 else 0) := by
      simp only [Game_checkWin, h1, h2, h3, h4, h5, h6, h7, h8, Bool.false_eq_true, if_false]
    by_cases hmv : Game_isMovesLeft b
    · rw [hcw, if_pos hmv]
      simp [hmv]
    · rw [hcw, if_neg hmv]
      have hmf : Game_isMovesLeft b = false := by
        simp only [Bool.not_eq_true] at hmv
        exact hmv
      simp [hmf]

/-- C4: from the empty board, with both sides choosing every move through
AI_findBestMove at the Optimal tier (X then O alternating), the completed
game's terminal classification is `0` (Draw). -/
theorem C4_optimal_selfplay_draw :
    Game_checkWin (AIvsAI_playout 10 0 ⟨initialBoard, 0, 0⟩).board = 0 := by
  have h1 : (AIvsAI_playout 10 0 ⟨0, 0, 0⟩).board = (AIvsAI_playout 9 1 ⟨1, 0, 0⟩).board :=
    playout_step 0 ⟨0, 0, 0⟩ (by norm_num) (by decide) (by decide) (by decide!) 9 0 0 0
  have h2 : (AIvsAI_playout 9 1 ⟨1, 0, 0⟩).board = (AIvsAI_playout 8 0 ⟨163, 0, 0⟩).board :=
    playout_step 1 ⟨1, 1, 0⟩ (by norm_num) (by decide) (by decide) (by decide!) 8 1 0 0
  have h3 : (AIvsAI_playout 8 0 ⟨163, 0, 0⟩).board = (AIvsAI_playout 7 1 ⟨166, 0, 0⟩).board :=
    playout_step 163 ⟨0, 1, 0⟩ (by norm_num) (by decide) (by decide) (by decide!) 7 0 0 0
  have h4 : (AIvsAI_playout 7 1 ⟨166, 0, 0⟩).board = (AIvsAI_playout 6 0 ⟨184, 0, 0⟩).board :=
    playout_step 166 ⟨0, 2, 0⟩ (by norm_num) (by decide) (by decide) (by decide!) 6 1 0 0
  have h5 : (AIvsAI_playout 6 0 ⟨184, 0, 0⟩).board = (AIvsAI_playout 5 1 ⟨913, 0, 0⟩).board :=
    playout_step 184 ⟨2, 0, 10⟩ (by norm_num) (by decide) (by decide) (by decide!) 5 0 0 0
  have h6 : (AIvsAI_playout 5 1 ⟨913, 0, 0⟩).board = (AIvsAI_playout 4 0 ⟨967, 0, 0⟩).board :=
    playout_step 913 ⟨1, 0, 0⟩ (by norm_num) (by decide) (by decide) (by decide!) 4 1 0 0
  have h7 : (AIvsAI_playout 4 0 ⟨967, 0, 0⟩).board = (AIvsAI_playout 3 1 ⟨1210, 0, 0⟩).board :=
    playout_step 967 ⟨1, 2, 10⟩ (by norm_num) (by decide) (by decide) (by decide!) 3 0 0 0
  have h8 : (AIvsAI_playout 3 1 ⟨1210, 0, 0⟩).board =
      (AIvsAI_playout 2 0 ⟨5584, 0, 0⟩).board :=
    playout_step 1210 ⟨2, 1, 0⟩ (by norm_num) (by decide) (by decide) (by decide!) 2 1 0 0
  have h9 : (AIvsAI_playout 2 0 ⟨5584, 0, 0⟩).board =
      (AIvsAI_playout 1 1 ⟨12145, 0, 0⟩).board :=
    playout_step 5584 ⟨2, 2, 0⟩ (by norm_num) (by decide) (by decide) (by decide!) 1 0 0 0
  show Game_checkWin (AIvsAI_playout 10 0 ⟨0, 0, 0⟩).board = 0
  rw [h1, h2, h3, h4, h5, h6, h7, h8, h9]
  decide

/-- C5: at the Bounded tier (difficulty 1), the code's threshold is
`max(best - 2, -10)`, the selection pool is exactly the set of candidate
indices whose score meets the threshold, and for every random draw the
selected move is one of those candidates. -/
theorem C5_bounded_tier (ai : AI) (b n m randVal : Nat)
    (hai : ai.difficulty = 1) (hw : Game_checkWin b = 2) :
    ((if bestScoreOf b - 2 < -10 then (-10 : Int) else bestScoreOf b - 2) =
      max (bestScoreOf b - 2) (-10)) ∧
    (∀ k : Nat,
      k ∈ (List.range (candidatesOf b).length).filter
          (fun k => (if bestScoreOf b - 2 < -10 then (-10 : Int) else bestScoreOf b - 2) ≤
            ((candidatesOf b).getD k ⟨0, 0, 0⟩).score) ↔
        (k < (candidatesOf b).length ∧
          max (bestScoreOf b - 2) (-10) ≤ ((candidatesOf b).getD k ⟨0, 0, 0⟩).score)) ∧
    (∃ k : Nat, k < (candidatesOf b).length ∧
      max (bestScoreOf b - 2) (-10) ≤ ((candidatesOf b).getD k ⟨0, 0, 0⟩).score ∧
      (AI_findBestMove_impl ai ⟨b, n, m⟩ randVal).1 =
        ⟨(((candidatesOf b).getD k ⟨0, 0, 0⟩).r : Int),
          (((candidatesOf b).getD k ⟨0, 0, 0⟩).c : Int)⟩) := by
  have hthr : (if bestScoreOf b - 2 < -10 then (-10 : Int) else bestScoreOf b - 2) =
      max (bestScoreOf b - 2) (-10) := by
    split_ifs with h <;> omega
  refine ⟨hthr, ?_, ?_⟩
  · intro k
    constructor
    · intro hk
      rcases List.mem_filter.mp hk with ⟨hkr, hkp⟩
      exact ⟨List.mem_range.mp hkr, by rw [← hthr]; exact of_decide_eq_true hkp⟩
    · intro hk
      exact List.mem_filter.mpr ⟨List.mem_range.mpr hk.1,
        decide_eq_true (by rw [hthr]; exact hk.2)⟩
  · have hcne := candidatesOf_ne_nil hw
    have hlen : ¬((candidatesOf b).length = 0) := fun h => hcne (List.length_eq_zero.mp h)
    rcases List.mem_map.mp (bestScore_is_max hw).2 with ⟨c, hcmem, hceq⟩
    have hblb : -10 ≤ bestScoreOf b := hceq ▸ (candScore_bounds c hcmem).1
    rcases List.mem_iff_get.mp hcmem with ⟨⟨kk, hkklt⟩, hkkeq⟩
    have hkD : ((candidatesOf b).getD kk ⟨0, 0, 0⟩) = c := by
      rw [List.getD_eq_get _ _ hkklt, hkkeq]
    have hpk : (if bestScoreOf b - 2 < -10 then (-10 : Int) else bestScoreOf b - 2) ≤
        ((candidatesOf b).getD kk ⟨0, 0, 0⟩).score := by
      rw [hkD, hceq]
      split_ifs <;> omega
    have hkpool : kk ∈ (List.range (candidatesOf b).length).filter
        (fun k => (if bestScoreOf b - 2 < -10 then (-10 : Int) else bestScoreOf b - 2) ≤
          ((candidatesOf b).getD k ⟨0, 0, 0⟩).score) :=
      List.mem_filter.mpr ⟨List.mem_range.mpr hkklt, decide_eq_true hpk⟩
    have hpoolpos : 0 < ((List.range (candidatesOf b).length).filter
        (fun k => (if bestScoreOf b - 2 < -10 then (-10 : Int) else bestScoreOf b - 2) ≤
          ((candidatesOf b).getD k ⟨0, 0, 0⟩).score)).length :=
      List.length_pos_of_mem hkpool
    have hmodlt : randVal % ((List.range (candidatesOf b).length).filter
        (fun k => (if bestScoreOf b - 2 < -10 then (-10 : Int) else bestScoreOf b - 2) ≤
          ((candidatesOf b).getD k ⟨0, 0, 0⟩).score)).length <
        ((List.range (candidatesOf b).length).filter
        (fun k => (if bestScoreOf b - 2 < -10 then (-10 : Int) else bestScoreOf b - 2) ≤
          ((candidatesOf b).getD k ⟨0, 0, 0⟩).score)).length :=
      Nat.mod_lt _ hpoolpos
    have hpickmem : ((List.range (candidatesOf b).length).filter
        (fun k => (if bestScoreOf b - 2 < -10 then (-10 : Int) else bestScoreOf b - 2) ≤
          ((candidatesOf b).getD k ⟨0, 0, 0⟩).score)).getD
        (randVal % ((List.range (candidatesOf b).length).filter
        (fun k => (if bestScoreOf b - 2 < -10 then (-10 : Int) else bestScoreOf b - 2) ≤
          ((candidatesOf b).getD k ⟨0, 0, 0⟩).score)).length) 0 ∈
        (List.range (candidatesOf b).length).filter
        (fun k => (if bestScoreOf b - 2 < -10 then (-10 : Int) else bestScoreOf b - 2) ≤
          ((candidatesOf b).getD k ⟨0, 0, 0⟩).score) := by
      rw [List.getD_eq_get _ _ hmodlt]
      exact List.get_mem _ _ _
    rcases List.mem_filter.mp hpickmem with ⟨hpr, hpp⟩
    refine ⟨_, List.mem_range.mp hpr, ?_, ?_⟩
    · rw [← hthr]
      exact of_decide_eq_true hpp
    · show (AI_findBestMove_impl ai ⟨b, n, m⟩ randVal).1 = _
      simp only [AI_findBestMove_impl]
      rw [findBestMove_scan_val b, (findBestMove_scan b).2.1]
      rw [if_neg hlen]
      rw [if_neg (show ¬(ai.difficulty = 2) by rw [hai]; norm_num)]
      rw [if_pos hai]
      rw [if_pos hpoolpos]

theorem C5_witness :
    ((if bestScoreOf 166 - 2 < -10 then (-10 : Int) else bestScoreOf 166 - 2) =
      max (bestScoreOf 166 - 2) (-10)) ∧
    (∀ k : Nat,
      k ∈ (List.range (candidatesOf 166).length).filter
          (fun k => (if bestScoreOf 166 - 2 < -10 then (-10 : Int) else bestScoreOf 166 - 2) ≤
            ((candidatesOf 166).getD k ⟨0, 0, 0⟩).score) ↔
        (k < (candidatesOf 166).length ∧
          max (bestScoreOf 166 - 2) (-10) ≤ ((candidatesOf 166).getD k ⟨0, 0, 0⟩).score)) ∧
    (∃ k : Nat, k < (candidatesOf 166).length ∧
      max (bestScoreOf 166 - 2) (-10) ≤ ((candidatesOf 166).getD k ⟨0, 0, 0⟩).score ∧
      (AI_findBestMove_impl ⟨1, 0⟩ ⟨166, 0, 0⟩ 0).1 =
        ⟨(((candidatesOf 166).getD k ⟨0, 0, 0⟩).r : Int),
          (((candidatesOf 166).getD k ⟨0, 0, 0⟩).c : Int)⟩) :=
  C5_bounded_tier ⟨1, 0⟩ 166 0 0 0 rfl (by decide)

/-- C6: every top-level search call — best move, prediction, explain —
returns the board unchanged: each apply during search is undone. -/
theorem C6_board_restored (ai : AI) (st : SState) (randVal : Nat) (maxOut : Int) :
    (AI_findBestMove_impl ai st randVal).2.board = st.board ∧
    (AI_getPrediction ai st).2.board = st.board ∧
    (AI_explain ai st maxOut).2.2.board = st.board := by
  have hbrec : ∀ s, ((fun s => AI_minimax s 0 false) s).2.board = s.board :=
    fun s => (minimaxF_inv 10 s 0 false).1
  have hvrec : ∀ s n m, ((fun s => AI_minimax s 0 false) s).1 =
      ((fun s => AI_minimax s 0 false) ⟨s.board, n, m⟩).1 :=
    fun s n m => ((minimaxF_inv 10 s 0 false).2).trans
      ((minimaxF_inv 10 ⟨s.board, n, m⟩ 0 false).2).symm
  refine ⟨?_, ?_, ?_⟩
  · simp only [AI_findBestMove_impl]
    split_ifs <;> exact (findBestMove_scan st.board).1
  · exact (legalFold_spec (fun s => AI_minimax s 0 false) 2
      (fun v a => if v > a then v else a) (by norm_num) hbrec hvrec cellsRM
      (-2147483647) st).1
  · exact explainScan_board (fun s => AI_minimax s 0 false) hbrec maxOut cellsRM 0 []
      ⟨st.board, 0, 0⟩

/-- C7 (amended): the C board write has no bounds check at all — in range it
writes unconditionally (no emptiness check, the old mark is overwritten),
out of range the array subscript is undefined behavior, not an OutOfRange
error: the void-returning function has no error channel. -/
theorem C7_makeMove_semantics (b : Nat) (row col : Int) (v : Nat) :
    (0 ≤ row ∧ row < 3 ∧ 0 ≤ col ∧ col < 3 →
      Game_makeMove_c b row col v = MoveOutcome.ok (Game_makeMove b row.toNat col.toNat v)) ∧
    (v < 3 → getCell (Game_makeMove b row.toNat col.toNat v) row.toNat col.toNat = v) ∧
    (¬(0 ≤ row ∧ row < 3 ∧ 0 ≤ col ∧ col < 3) →
      Game_makeMove_c b row col v = MoveOutcome.undefinedBehavior) := by
  refine ⟨?_, ?_, ?_⟩
  · intro h
    rw [Game_makeMove_c, if_pos h]
  · intro hv
    exact getCell_setCell_self _ _ _ _ hv
  · intro h
    rw [Game_makeMove_c, if_neg h]

theorem C7_counterexample :
    Game_makeMove_c 0 3 0 2 = MoveOutcome.undefinedBehavior ∧
    apply_spec 0 3 0 2 = ApplyResult.outOfRange := by
  constructor <;> decide

/-- C8 (amended): AI_findBestMove_impl and AI_explain reset the counters at
entry, so their whole result is independent of the incoming counter values;
AI_getPrediction performs no reset: its node counter accumulates on top of
whatever was there (board 5584: incoming 7 becomes 8, incoming 0 becomes
1). -/
theorem C8_counters (ai : AI) (st : SState) (randVal : Nat) (maxOut : Int) :
    AI_findBestMove_impl ai st randVal = AI_findBestMove_impl ai ⟨st.board, 0, 0⟩ randVal ∧
    AI_explain ai st maxOut = AI_explain ai ⟨st.board, 0, 0⟩ maxOut ∧
    (AI_getPrediction AI_init ⟨5584, 7, 0⟩).2.nodesSearched = 8 ∧
    (AI_getPrediction AI_init ⟨5584, 0, 0⟩).2.nodesSearched = 1 := by
  refine ⟨rfl, rfl, ?_, ?_⟩
  · decide!
  · decide!

theorem C8_counterexample :
    ¬(AI_getPrediction AI_init ⟨5584, 7, 0⟩).2.nodesSearched =
      (AI_getPrediction AI_init ⟨5584, 0, 0⟩).2.nodesSearched := by
  decide!

/-- C9: AI_getPrediction returns the three-way sign classification of the
maximum top-level score (`-1` AI wins, `1` player wins, `0` draw), that
maximum really is the maximum over all legal moves, the result is
difficulty-independent (the AI argument is never read) and involves no
randomness, and on the empty board it is Draw (`0`). -/
theorem C9_prediction_sign (ai ai2 : AI) (b n m : Nat) (hw : Game_checkWin b = 2) :
    (AI_getPrediction ai ⟨b, n, m⟩).1 =
      (if bestScoreOf b > 0 then -1 else if bestScoreOf b < 0 then 1 else 0) ∧
    (∀ c ∈ candidatesOf b, c.score ≤ bestScoreOf b) ∧
    bestScoreOf b ∈ (candidatesOf b).map (fun c => c.score) ∧
    AI_getPrediction ai ⟨b, n, m⟩ = AI_getPrediction ai2 ⟨b, n, m⟩ ∧
    (AI_getPrediction ai ⟨initialBoard, 0, 0⟩).1 = 0 := by
  refine ⟨(getPrediction_spec ai b n m).1, (bestScore_is_max hw).1,
    (bestScore_is_max hw).2, rfl, ?_⟩
  show (AI_getPrediction ai ⟨0, 0, 0⟩).1 = 0
  have h := (getPrediction_spec ai 0 0 0).1
  have hb0 : bestScoreOf 0 = bestScoreT 0 := bestScoreOf_eq_T (by norm_num) (by decide)
  have hT : bestScoreT 0 = 0 := by decide!
  rw [h, hb0, hT]
  norm_num

theorem C9_witness :
    (AI_getPrediction AI_init ⟨163, 0, 0⟩).1 =
      (if bestScoreOf 163 > 0 then -1 else if bestScoreOf 163 < 0 then 1 else 0) ∧
    (∀ c ∈ candidatesOf 163, c.score ≤ bestScoreOf 163) ∧
    bestScoreOf 163 ∈ (candidatesOf 163).map (fun c => c.score) ∧
    AI_getPrediction AI_init ⟨163, 0, 0⟩ = AI_getPrediction ⟨0, 2⟩ ⟨163, 0, 0⟩ ∧
    (AI_getPrediction AI_init ⟨initialBoard, 0, 0⟩).1 = 0 :=
  C9_prediction_sign AI_init ⟨0, 2⟩ 163 0 0 (by decide)

/-- C10: both setters clamp their integer argument into `[0, 2]` — storing
`min (max arg 0) 2`, never rejecting — leave the other field unchanged, and
the stored field always lies in `[0, 2]`. -/
theorem C10_setters_clamp (ai : AI) (level v : Int) :
    (AI_setDifficulty ai level).difficulty = min (max level 0) 2 ∧
    (AI_setDifficulty ai level).verbose = ai.verbose ∧
    (AI_setVerbose ai v).verbose = min (max v 0) 2 ∧
    (AI_setVerbose ai v).difficulty = ai.difficulty ∧
    0 ≤ (AI_setDifficulty ai level).difficulty ∧ (AI_setDifficulty ai level).difficulty ≤ 2 ∧
    0 ≤ (AI_setVerbose ai v).verbose ∧ (AI_setVerbose ai v).verbose ≤ 2 := by
  refine ⟨?_, rfl, ?_, rfl, ?_, ?_, ?_, ?_⟩ <;>
    (simp only [AI_setDifficulty, AI_setVerbose]; split_ifs <;> omega)
